import Mathlib

/-!
Shallow embedding of the `rag-chatbot-demo` backend (PDF extraction and RAG
chat service) together with proofs about its documented behaviour.

Coordinates, sizes and similarity scores are modelled as exact rationals
(`ℚ`); Python dictionaries with optional keys are modelled as structures of
`Option` fields; Python's falsiness tests are translated explicitly.
-/

namespace RagChatbot

/-- Python's `round` to an integer: round half to even (banker's rounding),
applied to exact rational inputs. -/
def pyRoundInt (q : ℚ) : ℤ :=
  let f := ⌊q⌋
  let r := q - (f : ℚ)
  if r < 1/2 then f
  else if 1/2 < r then f + 1
  else if f % 2 = 0 then f else f + 1

/-- Python's `round(x, 2)`: round to two decimal places. -/
def pyRound2 (q : ℚ) : ℚ := (pyRoundInt (q * 100) : ℚ) / 100

/-- Whether `needle` occurs as a contiguous sublist of `hay`. -/
def listContains (needle : List Char) : List Char → Bool
  | [] => needle.isEmpty
  | c :: rest => needle.isPrefixOf (c :: rest) || listContains needle rest

/-- Python's substring test `needle in hay` on strings. -/
def isSubstr (needle hay : String) : Bool := listContains needle.data hay.data

/-- Python's `str.strip()`: remove leading and trailing whitespace. -/
def pyStrip (s : String) : String :=
  ⟨((s.data.dropWhile Char.isWhitespace).reverse.dropWhile Char.isWhitespace).reverse⟩

/-- Python's `str.lower()` (on the characters this repository compares). -/
def pyLower (s : String) : String := ⟨s.data.map Char.toLower⟩

/-- Python falsiness of an optional string (`None` or `""` are falsy). -/
def optStrFalsy : Option String → Bool
  | none => true
  | some s => s.data.isEmpty

/-- `min` of a list of rationals (`min(xs)` in Python; the `[]` case never
arises at call sites, which guard on length). -/
def listMin : List ℚ → ℚ
  | [] => 0
  | x :: xs => xs.foldl min x

/-- `max` of a list of rationals. -/
def listMax : List ℚ → ℚ
  | [] => 0
  | x :: xs => xs.foldl max x

/-! ## `core/pdf_extraction_config.py` -/

namespace PDFConstants

def MIN_FIGURE_WIDTH : ℚ := 100
def MIN_FIGURE_HEIGHT : ℚ := 100
def MIN_FIGURE_AREA : ℚ := 20000
def CAPTION_SEARCH_RANGE : Nat := 5
def BBOX_TOLERANCE : ℚ := 5
def MAX_ADJACENCY_GAP : ℚ := 100
def ADJACENCY_THRESHOLD : ℚ := 100
def CONTAINMENT_TOLERANCE : ℚ := 5

end PDFConstants

namespace CaptionKeywords

def FIGURE_KEYWORDS : List String := ["図", "Figure", "Fig.", "Image", "Diagram"]
def TABLE_KEYWORDS : List String := ["table", "表", "テーブル", "tab.", "tbl"]
def DESCRIPTION_KEYWORDS : List String := ["図", "Figure", "table", "表", "Table"]

end CaptionKeywords

/-- `ElementType` enum from `core/pdf_extraction_config.py`. -/
inductive ElementType where
  | figure
  | table
  | unknown
deriving DecidableEq, Repr

/-- The `.value` string of an `ElementType` enum member. -/
def ElementType.toTag : ElementType → String
  | .figure => "figure"
  | .table => "table"
  | .unknown => "unknown"

/-! ## `core/pdf_extraction_models.py` -/

/-- `BoundingBox` dataclass. -/
structure BoundingBox where
  x_min : ℚ
  y_min : ℚ
  x_max : ℚ
  y_max : ℚ
deriving DecidableEq, Repr

def BoundingBox.width (b : BoundingBox) : ℚ := b.x_max - b.x_min

def BoundingBox.height (b : BoundingBox) : ℚ := b.y_max - b.y_min

def BoundingBox.area (b : BoundingBox) : ℚ := b.width * b.height

/-- A Python dict with (at most) the keys produced/consumed by
`BoundingBox.to_dict` / `BoundingBox.from_dict`; a missing key is `none`. -/
structure BBoxDict where
  x0 : Option ℚ := none
  y0 : Option ℚ := none
  x1 : Option ℚ := none
  y1 : Option ℚ := none
  width : Option ℚ := none
  height : Option ℚ := none
deriving DecidableEq, Repr

/-- A `BBoxDict` with no keys at all is the empty dict, which is falsy. -/
def BBoxDict.isFalsy (d : BBoxDict) : Bool :=
  d.x0.isNone && d.y0.isNone && d.x1.isNone && d.y1.isNone &&
    d.width.isNone && d.height.isNone

/-- `BoundingBox.to_dict`. -/
def BoundingBox.to_dict (b : BoundingBox) : BBoxDict :=
  { x0 := some (pyRound2 b.x_min)
    y0 := some (pyRound2 b.y_min)
    x1 := some (pyRound2 b.x_max)
    y1 := some (pyRound2 b.y_max)
    width := some (pyRound2 b.width)
    height := some (pyRound2 b.height) }

/-- `BoundingBox.from_dict`: each of `x0,y0,x1,y1` defaults to 0 when
missing; `width`/`height` keys are ignored. -/
def BoundingBox.from_dict (d : BBoxDict) : BoundingBox :=
  { x_min := d.x0.getD 0
    y_min := d.y0.getD 0
    x_max := d.x1.getD 0
    y_max := d.y1.getD 0 }

/-- `BoundingBoxLegacy` dataclass. -/
structure BoundingBoxLegacy where
  x0 : ℚ
  y0 : ℚ
  x1 : ℚ
  y1 : ℚ
deriving DecidableEq, Repr

/-- `BoundingBoxLegacy.to_standard`. -/
def BoundingBoxLegacy.to_standard (b : BoundingBoxLegacy) : BoundingBox :=
  { x_min := b.x0, y_min := b.y0, x_max := b.x1, y_max := b.y1 }

/-! ## `utils/bbox_operations.py` -/

namespace BoundingBoxOperations

/-- `BoundingBoxOperations.is_contained_within`. -/
def is_contained_within (inner outer : BoundingBox) (tolerance : ℚ) : Bool :=
  decide (inner.x_min ≥ outer.x_min - tolerance) &&
  decide (inner.y_min ≥ outer.y_min - tolerance) &&
  decide (inner.x_max ≤ outer.x_max + tolerance) &&
  decide (inner.y_max ≤ outer.y_max + tolerance)

/-- `BoundingBoxOperations.are_adjacent`. -/
def are_adjacent (first second : BoundingBox) (max_gap : ℚ) : Bool :=
  let vertical_gap := min |first.y_min - second.y_max| |second.y_min - first.y_max|
  let horizontal_gap := min |first.x_min - second.x_max| |second.x_min - first.x_max|
  let has_horizontal_overlap := !(decide (first.x_max < second.x_min) || decide (second.x_max < first.x_min))
  let has_vertical_overlap := !(decide (first.y_max < second.y_min) || decide (second.y_max < first.y_min))
  (decide (vertical_gap ≤ max_gap) && has_horizontal_overlap) ||
  (decide (horizontal_gap ≤ max_gap) && has_vertical_overlap)

end BoundingBoxOperations

/-! ## `processors/text_processor.py` -/

namespace TextProcessor

/-- `TextProcessor.calculate_text_similarity`. -/
def calculate_text_similarity (fast_text high_res_text : String) : ℚ :=
  let fast := pyStrip fast_text
  let high_res := pyStrip high_res_text
  if fast = high_res then 1
  else if isSubstr fast high_res || isSubstr high_res fast then
    (min fast.length high_res.length : ℚ) / (max fast.length high_res.length : ℚ)
  else 0

end TextProcessor

/-! ## Elements of `unstructured.documents.elements`

In `unstructured`, `Title`, `NarrativeText`, `Table` and `Image` are all
subclasses of `Text`, which is a subclass of `Element`. -/

/-- The dynamic class of an element, as far as the `isinstance` tests in this
repository can distinguish them. -/
inductive ElemClass where
  | title
  | narrativeText
  | text
  | image
  | table
  | other
deriving DecidableEq, Repr

/-- `isinstance(element, Text)` for each modelled class. -/
def ElemClass.isTextSubclass : ElemClass → Bool
  | .title | .narrativeText | .text | .image | .table => true
  | .other => false

/-- An `unstructured` element, restricted to the attributes this repository
reads: its class, `str(element)`, `metadata.page_number` (which may be an
absent attribute, `None`, or an integer), `metadata.coordinates.points`
(absent attribute, `None`, or a list of points), and `category`. -/
structure PyElement where
  cls : ElemClass
  text : String
  hasPageAttr : Bool
  pageNumber : Option Int
  coords : Option (Option (List (ℚ × ℚ)))
  category : Option String
deriving DecidableEq, Repr

/-- Out-of-range default for list indexing (never reached: every scanned
index is below the element-list length). -/
def defaultElement : PyElement :=
  { cls := .other, text := "", hasPageAttr := false, pageNumber := none,
    coords := none, category := none }

namespace BoundingBoxOperations

/-- `BoundingBoxOperations.create_from_element`: `none` when the element has
no metadata/coordinates attribute, the coordinates are `None` or lack
points, or there are fewer than 2 points. -/
def create_from_element (element : PyElement) (scale_to_hires : Bool) : Option BoundingBox :=
  match element.coords with
  | none => none
  | some none => none
  | some (some points) =>
    if points.isEmpty || points.length < 2 then none
    else
      let x_coordinates := points.map Prod.fst
      let y_coordinates := points.map Prod.snd
      let x_coordinates := if scale_to_hires then x_coordinates.map (· * (139/50)) else x_coordinates
      let y_coordinates := if scale_to_hires then y_coordinates.map (· * (139/50)) else y_coordinates
      some { x_min := listMin x_coordinates, y_min := listMin y_coordinates,
             x_max := listMax x_coordinates, y_max := listMax y_coordinates }

end BoundingBoxOperations

namespace BoundingBoxCalculator

/-- `BoundingBoxCalculator.extract_from_element` (legacy format). -/
def extract_from_element (element : PyElement) : Option BoundingBoxLegacy :=
  match element.coords with
  | none => none
  | some none => none
  | some (some points) =>
    if points.isEmpty || points.length < 2 then none
    else
      some { x0 := listMin (points.map Prod.fst), y0 := listMin (points.map Prod.snd),
             x1 := listMax (points.map Prod.fst), y1 := listMax (points.map Prod.snd) }

/-- `BoundingBoxCalculator.is_contained` (legacy version, fixed tolerance). -/
def is_contained (inner outer : BoundingBoxLegacy) : Bool :=
  decide (inner.x0 ≥ outer.x0 - PDFConstants.CONTAINMENT_TOLERANCE) &&
  decide (inner.y0 ≥ outer.y0 - PDFConstants.CONTAINMENT_TOLERANCE) &&
  decide (inner.x1 ≤ outer.x1 + PDFConstants.CONTAINMENT_TOLERANCE) &&
  decide (inner.y1 ≤ outer.y1 + PDFConstants.CONTAINMENT_TOLERANCE)

end BoundingBoxCalculator

/-! ## `utils/caption_detector.py`: `CaptionDetector` -/

namespace CaptionDetector

/-- `CaptionDetector._is_on_same_page`: `True` when the page attribute is
absent or falsy, else an equality test. -/
def _is_on_same_page (element : PyElement) (target_page : Int) : Bool :=
  if !element.hasPageAttr then true
  else
    match element.pageNumber with
    | none => true
    | some p => if p ≠ 0 then decide (p = target_page) else true

/-- `CaptionDetector._is_closer_match`. The second disjunct compares
`abs(current_index - target_index)` with `abs(target_index - current_index)`
exactly as the source does. -/
def _is_closer_match (current_index target_index : Nat) (existing_caption : Option String) : Bool :=
  optStrFalsy existing_caption ||
    decide (((current_index : Int) - (target_index : Int)).natAbs <
            ((target_index : Int) - (current_index : Int)).natAbs)

/-- `CaptionDetector._process_title_element`. -/
def _process_title_element (element : PyElement) (target_index current_index : Nat)
    (existing_caption : Option String) : Option (String × ElementType × Option BoundingBox) :=
  let text := pyStrip element.text
  if CaptionKeywords.TABLE_KEYWORDS.any (fun pattern => isSubstr pattern (pyLower text)) then
    if _is_closer_match current_index target_index existing_caption then
      some (text, ElementType.table, BoundingBoxOperations.create_from_element element false)
    else none
  else if CaptionKeywords.FIGURE_KEYWORDS.any (fun pattern => isSubstr pattern text) then
    if _is_closer_match current_index target_index existing_caption then
      some (text, ElementType.figure, BoundingBoxOperations.create_from_element element false)
    else none
  else none

/-- `CaptionDetector._process_text_element`. -/
def _process_text_element (element : PyElement) (target_index current_index : Nat) :
    Option (String × ElementType × Option BoundingBox) :=
  let text := pyStrip element.text
  if CaptionKeywords.TABLE_KEYWORDS.any (fun pattern => isSubstr pattern (pyLower text)) then
    some (text, ElementType.table, BoundingBoxOperations.create_from_element element false)
  else none

/-- `CaptionDetector._extract_caption_from_element`. -/
def _extract_caption_from_element (element : PyElement) (target_index current_index : Nat)
    (existing_caption : Option String) (existing_type : ElementType) :
    Option (String × ElementType × Option BoundingBox) :=
  if element.cls = .title then
    _process_title_element element target_index current_index existing_caption
  else if element.cls.isTextSubclass && optStrFalsy existing_caption then
    _process_text_element element target_index current_index
  else none

/-- `CaptionDetector._extract_description_from_element`. -/
def _extract_description_from_element (element : PyElement) (target_index current_index : Nat) :
    Option String :=
  if element.cls ≠ .narrativeText ∨ ((current_index : Int) - (target_index : Int)).natAbs > 2 then
    none
  else
    let text := pyStrip element.text
    if CaptionKeywords.DESCRIPTION_KEYWORDS.any (fun pattern => isSubstr pattern text) then
      some text
    else none

/-- Intermediate state of the scan in `find_caption_and_description`. -/
structure DetectorState where
  caption : Option String
  description : Option String
  title_bounding_box : Option BoundingBox
  caption_type : ElementType
deriving DecidableEq, Repr

/-- One iteration of the loop body of `find_caption_and_description`. -/
def detectorStep (elements : List PyElement) (element_index : Nat) (element_page : Int)
    (st : DetectorState) (index : Nat) : DetectorState :=
  if index = element_index then st
  else
    let current_element := elements.getD index defaultElement
    if !_is_on_same_page current_element element_page then st
    else
      let st1 :=
        match _extract_caption_from_element current_element element_index index
            st.caption st.caption_type with
        | some (c, t, bb) =>
          { st with caption := some c, caption_type := t, title_bounding_box := bb }
        | none => st
      if optStrFalsy st1.description then
        { st1 with description := _extract_description_from_element current_element element_index index }
      else st1

/-- `CaptionDetector.find_caption_and_description`. -/
def find_caption_and_description (elements : List PyElement) (element_index : Nat)
    (element_page : Int) : Option String × Option String × Option BoundingBox × ElementType :=
  let search_start := element_index - PDFConstants.CAPTION_SEARCH_RANGE
  let search_end := min elements.length (element_index + PDFConstants.CAPTION_SEARCH_RANGE + 1)
  let st := (List.range' search_start (search_end - search_start)).foldl
    (detectorStep elements element_index element_page)
    { caption := none, description := none, title_bounding_box := none, caption_type := .unknown }
  (st.caption, st.description, st.title_bounding_box, st.caption_type)

end CaptionDetector

/-! ## `utils/caption_detector.py`: `CaptionExtractor` (legacy) -/

/-- `CaptionInfo` dataclass from `core/pdf_extraction_models.py` (the legacy
path stores a `BoundingBoxLegacy` and a string type tag). -/
structure CaptionInfo where
  text : Option String
  description : Option String
  bbox : Option BoundingBoxLegacy
  caption_type : String
deriving DecidableEq, Repr

namespace CaptionExtractor

/-- `CaptionExtractor._is_same_page`: `True` when the page attribute is
absent; otherwise a strict equality test (a `None` page number compares
unequal to every target page). -/
def _is_same_page (element : PyElement) (target_page : Int) : Bool :=
  if !element.hasPageAttr then true
  else decide (element.pageNumber = some target_page)

/-- `CaptionExtractor._is_table_caption`. -/
def _is_table_caption (text : String) : Bool :=
  CaptionKeywords.TABLE_KEYWORDS.any (fun pattern => isSubstr pattern (pyLower text))

/-- `CaptionExtractor._is_figure_caption`. -/
def _is_figure_caption (text : String) : Bool :=
  CaptionKeywords.FIGURE_KEYWORDS.any (fun pattern => isSubstr pattern text)

/-- `CaptionExtractor._is_closer_than_existing`. -/
def _is_closer_than_existing (element_index target_index : Nat)
    (existing_caption : Option String) : Bool :=
  optStrFalsy existing_caption ||
    decide (((element_index : Int) - (target_index : Int)).natAbs < 3)

/-- `CaptionExtractor._extract_title_caption`. -/
def _extract_title_caption (element : PyElement) (element_index target_index : Nat)
    (existing_caption : Option String) : Option (String × String × Option BoundingBoxLegacy) :=
  let text := pyStrip element.text
  if _is_table_caption text then
    if _is_closer_than_existing element_index target_index existing_caption then
      some (text, "table", BoundingBoxCalculator.extract_from_element element)
    else none
  else if _is_figure_caption text then
    if _is_closer_than_existing element_index target_index existing_caption then
      some (text, "figure", BoundingBoxCalculator.extract_from_element element)
    else none
  else none

/-- `CaptionExtractor._extract_text_caption`. -/
def _extract_text_caption (element : PyElement) (element_index target_index : Nat)
    (existing_caption : Option String) : Option (String × String × Option BoundingBoxLegacy) :=
  let text := pyStrip element.text
  if _is_table_caption text then
    if _is_closer_than_existing element_index target_index existing_caption then
      some (text, "table", BoundingBoxCalculator.extract_from_element element)
    else none
  else none

/-- `CaptionExtractor._extract_description`. -/
def _extract_description (element : PyElement) (element_index target_index : Nat) :
    Option String :=
  if ((element_index : Int) - (target_index : Int)).natAbs ≤ 2 then
    let text := pyStrip element.text
    if (["図", "Figure", "table", "表", "Table"] : List String).any
        (fun pattern => isSubstr pattern text) then
      some text
    else none
  else none

/-- Intermediate state of the scan in `find_for_element`. -/
structure ExtractorState where
  caption : Option String
  description : Option String
  title_bbox : Option BoundingBoxLegacy
  caption_type : String
deriving DecidableEq, Repr

/-- One iteration of the loop body of `find_for_element`. -/
def extractorStep (elements : List PyElement) (element_index : Nat) (element_page : Int)
    (st : ExtractorState) (i : Nat) : ExtractorState :=
  if i = element_index then st
  else
    let element := elements.getD i defaultElement
    if !_is_same_page element element_page then st
    else if element.cls = .title then
      match _extract_title_caption element i element_index st.caption with
      | some (c, t, bb) => { st with caption := some c, caption_type := t, title_bbox := bb }
      | none => st
    else if element.cls = .narrativeText && optStrFalsy st.description then
      { st with description := _extract_description element i element_index }
    else if element.cls.isTextSubclass && optStrFalsy st.caption then
      match _extract_text_caption element i element_index st.caption with
      | some (c, t, bb) => { st with caption := some c, caption_type := t, title_bbox := bb }
      | none => st
    else st

/-- `CaptionExtractor.find_for_element`. -/
def find_for_element (elements : List PyElement) (element_index : Nat)
    (element_page : Int) : CaptionInfo :=
  let start_idx := element_index - PDFConstants.CAPTION_SEARCH_RANGE
  let end_idx := min elements.length (element_index + PDFConstants.CAPTION_SEARCH_RANGE + 1)
  let st := (List.range' start_idx (end_idx - start_idx)).foldl
    (extractorStep elements element_index element_page)
    { caption := none, description := none, title_bbox := none, caption_type := "unknown" }
  { text := st.caption, description := st.description, bbox := st.title_bbox,
    caption_type := st.caption_type }

end CaptionExtractor

/-! ## `classifiers/element_classifier_hybrid.py`

The regular-expression test `_has_diagram_pattern` is kept abstract: the
classifier is parameterised over it, and the theorem about the no-bounding-box
path holds for every instantiation. -/

namespace ElementClassifierHybrid

/-- `ElementClassifierHybrid._is_image_element`. -/
def _is_image_element (element : PyElement) : Bool :=
  element.cls = .image ||
    (match element.category with
     | some c => decide (c = "Image") || decide (c = "Figure")
     | none => false)

/-- `ElementClassifierHybrid._classify_by_characteristics`, parameterised by
the `_has_diagram_pattern` regular-expression test. -/
def _classify_by_characteristics (has_diagram_pattern : String → Bool)
    (element : PyElement) (description : Option String) : ElementType :=
  match BoundingBoxOperations.create_from_element element false with
  | none => ElementType.table
  | some bounding_box =>
    let bigPanel :=
      decide (bounding_box.width > 900) && decide (bounding_box.height > 600) &&
        (match description with
         | some d =>
           !d.isEmpty &&
             (["panel", "パネル", "diagram", "図", "Figure"] : List String).any
               (fun word => isSubstr word d)
         | none => false)
    if bigPanel then ElementType.figure
    else if has_diagram_pattern element.text then ElementType.figure
    else ElementType.table

/-- `ElementClassifierHybrid._classify_table_element`. -/
def _classify_table_element (has_diagram_pattern : String → Bool) (element : PyElement)
    (elements : List PyElement) (element_index : Nat) (current_page : Int) : ElementType :=
  let r := CaptionDetector.find_caption_and_description elements element_index current_page
  match r.2.2.2 with
  | .figure => ElementType.figure
  | .table => ElementType.table
  | .unknown => _classify_by_characteristics has_diagram_pattern element r.2.1

/-- `ElementClassifierHybrid.classify_element`. -/
def classify_element (has_diagram_pattern : String → Bool) (element : PyElement)
    (elements : List PyElement) (element_index : Nat) (current_page : Int) : ElementType :=
  if _is_image_element element then ElementType.figure
  else if element.cls = .table then
    _classify_table_element has_diagram_pattern element elements element_index current_page
  else ElementType.unknown

end ElementClassifierHybrid

/-! ## Figure size filters -/

namespace PDFSimpleExtractor

/-- `_is_valid_figure_size` from `extractors/pdf_simple_extractor.py`. -/
def _is_valid_figure_size (bbox : Option BoundingBox) : Bool :=
  match bbox with
  | none => false
  | some b =>
    !((decide (b.width < PDFConstants.MIN_FIGURE_WIDTH) &&
       decide (b.height < PDFConstants.MIN_FIGURE_HEIGHT)) ||
      decide (b.area < PDFConstants.MIN_FIGURE_AREA))

end PDFSimpleExtractor

namespace PDFHybridExtractor

/-- `_should_keep_figure` from `extractors/pdf_hybrid_extractor.py`, applied
to the figure's `bounding_box` entry (`none` when the key is missing). -/
def _should_keep_figure (bounding_box_dict : Option BBoxDict) : Bool :=
  match bounding_box_dict with
  | none => true
  | some d =>
    if d.isFalsy then true
    else
      let width := d.width.getD 0
      let height := d.height.getD 0
      let area := width * height
      !((decide (width < PDFConstants.MIN_FIGURE_WIDTH) &&
         decide (height < PDFConstants.MIN_FIGURE_HEIGHT)) ||
        decide (area < PDFConstants.MIN_FIGURE_AREA))

end PDFHybridExtractor

/-! ## `utils/parallel_combiner.py` -/

/-- A figure dict inside a section, restricted to the keys
`combine_page_results` reads or writes (`_page_local_index` and
`_global_index` may be absent before combination). -/
structure FigureDict where
  index : Nat
  id : String
  page : Nat
  filename : String
  path : String
  page_local_index : Option Nat := none
  global_index : Option Nat := none
deriving DecidableEq, Repr

/-- A table dict inside a section (`csv_path` may be absent beforehand). -/
structure TableDict where
  index : Nat
  id : String
  page : Nat
  filename : String
  path : String
  csv_path : Option String := none
  page_local_index : Option Nat := none
  global_index : Option Nat := none
deriving DecidableEq, Repr

/-- A section dict from a page's `metadata["structure"]`. -/
structure SectionDict where
  id : String
  index : Nat
  page : Nat
  figures : List FigureDict
  tables : List TableDict
  text_content : String
deriving DecidableEq, Repr

/-- One per-page extraction result: `metadata` is `none` when the Python
value is falsy (`None` or an empty dict); otherwise it carries the
`"structure"` list. -/
structure PageResult where
  success : Bool
  page : Nat
  metadata : Option (List SectionDict)
deriving DecidableEq, Repr

/-- The `extraction_info` block of the combined metadata. -/
structure ExtractionInfo where
  source_pdf : String
  total_pages : Nat
  successful_pages : Nat
  total_figures : Nat
  total_tables : Nat
  total_sections : Nat
deriving DecidableEq, Repr

/-- The combined metadata returned by `combine_page_results`
(`structure_list` models the `"structure"` key). -/
structure CombinedMetadata where
  extraction_info : ExtractionInfo
  structure_list : List SectionDict
deriving DecidableEq, Repr

namespace ParallelResultCombiner

/-- Renumbering of a single figure inside the figures loop, with `c` the
incremented `figure_counter`. -/
def renumber_figure (page_num c : Nat) (figure : FigureDict) : FigureDict :=
  { figure with
    index := c
    id := "figure_" ++ toString c
    page := page_num
    page_local_index := some figure.index
    global_index := some c
    filename := "page" ++ toString page_num ++ "_fig" ++ toString c ++ ".png"
    path := "figures/page" ++ toString page_num ++ "_fig" ++ toString c ++ ".png" }

/-- The figures loop: threads `figure_counter` through the section's
figures. -/
def renumber_figures (page_num : Nat) : Nat → List FigureDict → Nat × List FigureDict
  | c, [] => (c, [])
  | c, figure :: rest =>
    let figure2 := renumber_figure page_num (c + 1) figure
    let (c2, rest2) := renumber_figures page_num (c + 1) rest
    (c2, figure2 :: rest2)

/-- Renumbering of a single table, with `c` the incremented
`table_counter`. -/
def renumber_table (page_num c : Nat) (table : TableDict) : TableDict :=
  { table with
    index := c
    id := "table_" ++ toString c
    page := page_num
    page_local_index := some table.index
    global_index := some c
    filename := "page" ++ toString page_num ++ "_table" ++ toString c ++ ".png"
    path := "tables/page" ++ toString page_num ++ "_table" ++ toString c ++ ".png"
    csv_path := some ("tables/page" ++ toString page_num ++ "_table" ++ toString c ++ ".csv") }

/-- The tables loop. -/
def renumber_tables (page_num : Nat) : Nat → List TableDict → Nat × List TableDict
  | c, [] => (c, [])
  | c, table :: rest =>
    let table2 := renumber_table page_num (c + 1) table
    let (c2, rest2) := renumber_tables page_num (c + 1) rest
    (c2, table2 :: rest2)

/-- One figure's replacement inside `fix_text_content_references`. -/
def fix_figure_ref (page_num : Nat) (text_content : String) (figure : FigureDict) : String :=
  let global_index := figure.global_index.getD figure.index
  let old_ref := "figures/page1_fig" ++ toString (figure.page_local_index.getD 1) ++ ".png"
  let new_ref := "figures/page" ++ toString page_num ++ "_fig" ++ toString global_index ++ ".png"
  text_content.replace old_ref new_ref

/-- One table's replacement inside `fix_text_content_references`. -/
def fix_table_ref (page_num : Nat) (text_content : String) (table : TableDict) : String :=
  let global_index := table.global_index.getD table.index
  let old_ref := "tables/page1_table" ++ toString (table.page_local_index.getD 1) ++ ".png"
  let new_ref := "tables/page" ++ toString page_num ++ "_table" ++ toString global_index ++ ".png"
  text_content.replace old_ref new_ref

/-- `ParallelResultCombiner.fix_text_content_references`. -/
def fix_text_content_references (sec : SectionDict) : SectionDict :=
  let page_num := sec.page
  let tc := sec.figures.foldl (fix_figure_ref page_num) sec.text_content
  let tc2 := sec.tables.foldl (fix_table_ref page_num) tc
  { sec with text_content := tc2 }

/-- The mutable state of `combine_page_results`: the three counters, the two
running totals, and the accumulated combined structure. -/
structure CombineState where
  figure_counter : Nat
  table_counter : Nat
  section_counter : Nat
  total_figures : Nat
  total_tables : Nat
  combined_structure : List SectionDict
deriving DecidableEq, Repr

/-- The body of the per-section loop. -/
def combine_section (page_num : Nat) (st : CombineState) (sec : SectionDict) : CombineState :=
  let section_counter := st.section_counter + 1
  let s1 := { sec with
    id := "section_" ++ toString section_counter
    index := section_counter
    page := page_num }
  let (figure_counter, figures) := renumber_figures page_num st.figure_counter s1.figures
  let (table_counter, tables) := renumber_tables page_num st.table_counter s1.tables
  let s2 := fix_text_content_references { s1 with figures := figures, tables := tables }
  { figure_counter := figure_counter
    table_counter := table_counter
    section_counter := section_counter
    total_figures := st.total_figures + s1.figures.length
    total_tables := st.total_tables + s1.tables.length
    combined_structure := st.combined_structure ++ [s2] }

/-- The per-page loop of `combine_page_results`: pages whose `success` flag
is false or whose metadata is falsy are skipped. -/
def combine_pages : CombineState → List PageResult → CombineState
  | st, [] => st
  | st, page_result :: rest =>
    let st2 :=
      if !page_result.success then st
      else
        match page_result.metadata with
        | none => st
        | some sections => sections.foldl (combine_section page_result.page) st
    combine_pages st2 rest

/-- `ParallelResultCombiner.combine_page_results`. -/
def combine_page_results (pdf_name : String) (page_results : List PageResult) : CombinedMetadata :=
  let st := combine_pages
    { figure_counter := 0, table_counter := 0, section_counter := 0,
      total_figures := 0, total_tables := 0, combined_structure := [] }
    page_results
  { extraction_info :=
      { source_pdf := pdf_name
        total_pages := page_results.length
        successful_pages := (page_results.filter (fun r => r.success)).length
        total_figures := st.total_figures
        total_tables := st.total_tables
        total_sections := st.combined_structure.length }
    structure_list := st.combined_structure }

end ParallelResultCombiner

/-! ## `rag/rag_query.py`: the LLM call and error handling in `query` -/

/-- The metadata keys of a retrieved context that `query` reads when
building references. -/
structure RefMetadata where
  page : Option Nat
  caption : Option String
  description : Option String
  bbox_x0 : Option ℚ := none
  bbox_y0 : Option ℚ := none
  bbox_x1 : Option ℚ := none
  bbox_y1 : Option ℚ := none
deriving DecidableEq, Repr

/-- One retrieved context (text or visual). -/
structure RetrievedContext where
  content : String
  score : Option ℚ
  metadata : RefMetadata
deriving DecidableEq, Repr

/-- The `boundingRect` position attached to a reference. -/
structure RefPosition where
  x1 : ℚ
  y1 : ℚ
  x2 : ℚ
  y2 : ℚ
  pageNumber : Nat
deriving DecidableEq, Repr

/-- A reference entry returned to the frontend. -/
structure Reference where
  id : String
  page_number : Nat
  text_preview : String
  relevance_score : ℚ
  images : List String
  position : Option RefPosition
deriving DecidableEq, Repr

/-- The return value of `RAGQuerySystem.query`: a pair of answer and
references when `return_references` is true, otherwise just the answer. -/
inductive QueryReturn where
  | withRefs (answer : String) (references : List Reference)
  | answerOnly (answer : String)
deriving DecidableEq, Repr

namespace RAGQuerySystem

/-- The position built from a context's metadata: present only when all four
bbox keys are present, scaled down by 2.78. -/
def build_position (m : RefMetadata) : Option RefPosition :=
  if m.bbox_x0.isSome && m.bbox_y0.isSome && m.bbox_x1.isSome && m.bbox_y1.isSome then
    some { x1 := m.bbox_x0.getD 0 / (139/50), y1 := m.bbox_y0.getD 0 / (139/50),
           x2 := m.bbox_x1.getD 0 / (139/50), y2 := m.bbox_y1.getD 0 / (139/50),
           pageNumber := m.page.getD 1 }
  else none

/-- A text-context reference (`id = "text_<i>"`). -/
def build_text_reference (i : Nat) (ctx : RetrievedContext) : Reference :=
  { id := "text_" ++ toString i
    page_number := ctx.metadata.page.getD 1
    text_preview := ctx.content.take 200
    relevance_score := ctx.score.getD (1/2)
    images := []
    position := build_position ctx.metadata }

/-- A visual-context reference (`id = "visual_<i>"`). -/
def build_visual_reference (i : Nat) (ctx : RetrievedContext) : Reference :=
  { id := "visual_" ++ toString i
    page_number := ctx.metadata.page.getD 1
    text_preview := ctx.metadata.caption.getD (ctx.metadata.description.getD "")
    relevance_score := ctx.score.getD (1/2)
    images := []
    position := build_position ctx.metadata }

/-- The `try`/`except` tail of `RAGQuerySystem.query`: the outcome of the
chat-completion call is either an answer or a raised exception, modelled as
`Except` with the exception's string rendering. -/
def query (text_contexts visual_contexts : List RetrievedContext)
    (llm_outcome : Except String String) (return_references : Bool) : QueryReturn :=
  match llm_outcome with
  | .ok answer =>
    if return_references then
      .withRefs answer
        (text_contexts.mapIdx build_text_reference ++
         visual_contexts.mapIdx build_visual_reference)
    else .answerOnly answer
  | .error e =>
    if return_references then .withRefs ("Error calling LLM: " ++ e) []
    else .answerOnly ("Error calling LLM: " ++ e)

end RAGQuerySystem

/-! ## `main.py`: the `/chat` conversation-history update -/

/-- One role/content turn of the conversation history. -/
structure ChatTurn where
  role : String
  content : String
deriving DecidableEq, Repr

namespace WebService

/-- The history update of one successfully handled `/chat` turn
(`main.py` lines 266-278): append the user message and the assistant
answer, then keep only the most recent 20 entries (`history[-20:]`). -/
def update_conversation_history (history : List ChatTurn) (user_message answer : String) :
    List ChatTurn :=
  let h := history ++ [{ role := "user", content := user_message },
                       { role := "assistant", content := answer }]
  if h.length > 20 then h.drop (h.length - 20) else h

/-- The user entry appended by one chat turn. -/
def userTurn (content : String) : ChatTurn := { role := "user", content := content }

/-- The assistant entry appended by one chat turn. -/
def assistantTurn (content : String) : ChatTurn := { role := "assistant", content := content }

end WebService

/-! ## Derived views of combined metadata (used to state C1) -/

/-- All figure dicts of a combined structure, in document order. -/
def allFigures (secs : List SectionDict) : List FigureDict :=
  (secs.map SectionDict.figures).flatten

/-- All table dicts of a combined structure, in document order. -/
def allTables (secs : List SectionDict) : List TableDict :=
  (secs.map SectionDict.tables).flatten

/-- Every figure's filename and path encode its page and its (global)
index, in the `page{P}_fig{G}.png` format. -/
def FigureNamesOK (secs : List SectionDict) : Prop :=
  ∀ sec ∈ secs, ∀ f ∈ sec.figures,
    f.filename = "page" ++ toString f.page ++ "_fig" ++ toString f.index ++ ".png" ∧
    f.path = "figures/page" ++ toString f.page ++ "_fig" ++ toString f.index ++ ".png"

/-- Every table's filename, path and csv path encode its page and its
(global) index, in the `page{P}_table{G}` format. -/
def TableNamesOK (secs : List SectionDict) : Prop :=
  ∀ sec ∈ secs, ∀ t ∈ sec.tables,
    t.filename = "page" ++ toString t.page ++ "_table" ++ toString t.index ++ ".png" ∧
    t.path = "tables/page" ++ toString t.page ++ "_table" ++ toString t.index ++ ".png" ∧
    t.csv_path = some ("tables/page" ++ toString t.page ++ "_table" ++ toString t.index ++ ".csv")

/-- Loop invariant of `combine_page_results`: the accumulated structure's
figures (resp. tables) carry exactly the global indices `1..figure_counter`
(resp. `1..table_counter`) in order, the running totals track the counters,
and all filenames are in the global format. -/
def CombineInv (st : ParallelResultCombiner.CombineState) : Prop :=
  (allFigures st.combined_structure).map FigureDict.index = List.range' 1 st.figure_counter ∧
  (allTables st.combined_structure).map TableDict.index = List.range' 1 st.table_counter ∧
  st.total_figures = st.figure_counter ∧
  st.total_tables = st.table_counter ∧
  FigureNamesOK st.combined_structure ∧
  TableNamesOK st.combined_structure

/-- The pages kept by `combine_page_results`: `success` truthy and metadata
truthy. -/
def pageKept (r : PageResult) : Bool := r.success && r.metadata.isSome

/-! ## Relating the two caption implementations (used to state C2) -/

/-- An element whose `page_number` attribute, when present, is a non-falsy
integer. On such elements the two implementations' same-page tests agree. -/
def pageWellFormed (e : PyElement) : Bool :=
  !e.hasPageAttr ||
    (match e.pageNumber with
     | some q => decide (q ≠ 0)
     | none => false)

/-- An element that can produce a caption in either implementation: a
`Title` matching a table or figure keyword, or a non-`Title` `Text`
subclass matching a table keyword. -/
def isCaptionCandidate (e : PyElement) : Bool :=
  (decide (e.cls = ElemClass.title) &&
    (CaptionExtractor._is_table_caption (pyStrip e.text) ||
     CaptionExtractor._is_figure_caption (pyStrip e.text))) ||
  (decide (e.cls ≠ ElemClass.title) && e.cls.isTextSubclass &&
    CaptionExtractor._is_table_caption (pyStrip e.text))

/-- Position `i` of the scan produces a caption candidate: it is not the
target element, it passes the same-page test, and the element there is a
caption candidate. -/
def isCandidateAt (elements : List PyElement) (element_index : Nat) (element_page : Int)
    (i : Nat) : Bool :=
  decide (i ≠ element_index) &&
    CaptionDetector._is_on_same_page (elements.getD i defaultElement) element_page &&
    isCaptionCandidate (elements.getD i defaultElement)

/-- The indices scanned by both caption searches. -/
def windowIndices (elements : List PyElement) (element_index : Nat) : List Nat :=
  List.range' (element_index - PDFConstants.CAPTION_SEARCH_RANGE)
    (min elements.length (element_index + PDFConstants.CAPTION_SEARCH_RANGE + 1) -
      (element_index - PDFConstants.CAPTION_SEARCH_RANGE))

/-- Correspondence between the two implementations' scan states: equal
captions and descriptions, bounding boxes equal up to the legacy record,
type tags equal up to the enum's string value, and no empty-string caption
or description (the implementations only ever store keyword-bearing,
stripped texts, which are never empty). -/
def StateRel (d : CaptionDetector.DetectorState) (e : CaptionExtractor.ExtractorState) : Prop :=
  d.caption = e.caption ∧
  d.description = e.description ∧
  d.title_bounding_box = e.title_bbox.map BoundingBoxLegacy.to_standard ∧
  d.caption_type.toTag = e.caption_type ∧
  (∀ s, d.caption = some s → s ≠ "") ∧
  (∀ s, d.description = some s → s ≠ "")

/-! ## Concrete fixtures used by witnesses and counterexamples -/

/-- A `Title` element with the given text and no page/coordinate metadata. -/
def titleElement (s : String) : PyElement :=
  { cls := .title, text := s, hasPageAttr := false, pageNumber := none,
    coords := none, category := none }

/-- A metadata-free element that is not a `Text` subclass. -/
def otherElement : PyElement :=
  { cls := .other, text := "x", hasPageAttr := false, pageNumber := none,
    coords := none, category := none }

/-- A `Table` element with no coordinate metadata. -/
def tableElement (s : String) : PyElement :=
  { cls := .table, text := s, hasPageAttr := false, pageNumber := none,
    coords := none, category := none }

/-- Element list with two figure-captioned titles in the search window of the
element at index 3. -/
def twoTitleElements : List PyElement :=
  [titleElement "Figure A", otherElement, titleElement "Figure B", tableElement "t"]

/-- Element list with a single caption candidate in the search window of the
element at index 2. -/
def oneTitleElements : List PyElement :=
  [titleElement "Figure A", otherElement, tableElement "t"]

/-! ## Supporting lemmas -/

/-- `listContains` decides the contiguous-sublist relation. -/
theorem listContains_iff_IsInfix (n h : List Char) : listContains n h = true ↔ n <:+: h := by
  induction h with
  | nil =>
    simp [listContains, List.isEmpty_iff]
  | cons c rest ih =>
    simp [listContains, List.isPrefixOf_iff_prefix, ih, List.infix_cons_iff]

/-- `pyRoundInt` is the identity on integers. -/
theorem pyRoundInt_intCast (k : ℤ) : pyRoundInt (k : ℚ) = k := by
  simp only [pyRoundInt, Int.floor_intCast, sub_self]
  norm_num

/-- `pyRound2` fixes every rational with at most two decimal places. -/
theorem pyRound2_cent (k : ℤ) : pyRound2 ((k : ℚ) / 100) = (k : ℚ) / 100 := by
  have h : ((k : ℚ) / 100) * 100 = (k : ℚ) := by
    field_simp
  simp only [pyRound2, h, pyRoundInt_intCast]

/-- The figures loop: final counter, assigned indices, and name formats. -/
theorem renumber_figures_spec (page_num : Nat) :
  ∀ (figs : List FigureDict) (c : Nat),
    (ParallelResultCombiner.renumber_figures page_num c figs).1 = c + figs.length ∧
    (ParallelResultCombiner.renumber_figures page_num c figs).2.map FigureDict.index =
      List.range' (c + 1) figs.length ∧
    ∀ f ∈ (ParallelResultCombiner.renumber_figures page_num c figs).2,
      f.page = page_num ∧
      f.filename = "page" ++ toString f.page ++ "_fig" ++ toString f.index ++ ".png" ∧
      f.path = "figures/page" ++ toString f.page ++ "_fig" ++ toString f.index ++ ".png" := by
  intro figs
  induction figs with
  | nil =>
    intro c
    simp [ParallelResultCombiner.renumber_figures]
  | cons f fs ih =>
    intro c
    obtain ⟨ih1, ih2, ih3⟩ := ih (c + 1)
    rcases hre : ParallelResultCombiner.renumber_figures page_num (c + 1) fs with ⟨c2, rest2⟩
    rw [hre] at ih1 ih2 ih3
    simp only [ParallelResultCombiner.renumber_figures, hre]
    refine ⟨?_, ?_, ?_⟩
    · simp only at ih1 ⊢
      simp [ih1, List.length_cons]
      omega
    · simp only [List.map_cons, ParallelResultCombiner.renumber_figure, List.length_cons,
        List.range'_succ, List.cons.injEq]
      exact ⟨trivial, by simpa using ih2⟩
    · intro g hg
      simp only [List.mem_cons] at hg
      rcases hg with hg | hg
      · subst hg
        simp [ParallelResultCombiner.renumber_figure]
      · exact ih3 g hg

/-- The tables loop: final counter, assigned indices, and name formats. -/
theorem renumber_tables_spec (page_num : Nat) :
  ∀ (tbls : List TableDict) (c : Nat),
    (ParallelResultCombiner.renumber_tables page_num c tbls).1 = c + tbls.length ∧
    (ParallelResultCombiner.renumber_tables page_num c tbls).2.map TableDict.index =
      List.range' (c + 1) tbls.length ∧
    ∀ t ∈ (ParallelResultCombiner.renumber_tables page_num c tbls).2,
      t.page = page_num ∧
      t.filename = "page" ++ toString t.page ++ "_table" ++ toString t.index ++ ".png" ∧
      t.path = "tables/page" ++ toString t.page ++ "_table" ++ toString t.index ++ ".png" ∧
      t.csv_path =
        some ("tables/page" ++ toString t.page ++ "_table" ++ toString t.index ++ ".csv") := by
  intro tbls
  induction tbls with
  | nil =>
    intro c
    simp [ParallelResultCombiner.renumber_tables]
  | cons t ts ih =>
    intro c
    obtain ⟨ih1, ih2, ih3⟩ := ih (c + 1)
    rcases hre : ParallelResultCombiner.renumber_tables page_num (c + 1) ts with ⟨c2, rest2⟩
    rw [hre] at ih1 ih2 ih3
    simp only [ParallelResultCombiner.renumber_tables, hre]
    refine ⟨?_, ?_, ?_⟩
    · simp only at ih1 ⊢
      simp [ih1, List.length_cons]
      omega
    · simp only [List.map_cons, ParallelResultCombiner.renumber_table, List.length_cons,
        List.range'_succ, List.cons.injEq]
      exact ⟨trivial, by simpa using ih2⟩
    · intro g hg
      simp only [List.mem_cons] at hg
      rcases hg with hg | hg
      · subst hg
        simp [ParallelResultCombiner.renumber_table]
      · exact ih3 g hg

/-- `fix_text_content_references` only rewrites `text_content`. -/
theorem fix_text_content_references_figures (sec : SectionDict) :
  (ParallelResultCombiner.fix_text_content_references sec).figures = sec.figures := rfl

/-- `fix_text_content_references` only rewrites `text_content` (tables). -/
theorem fix_text_content_references_tables (sec : SectionDict) :
  (ParallelResultCombiner.fix_text_content_references sec).tables = sec.tables := rfl

/-- One section step preserves the combination invariant. -/
theorem combine_section_inv (page_num : Nat) (st : ParallelResultCombiner.CombineState)
    (sec : SectionDict) (h : CombineInv st) :
    CombineInv (ParallelResultCombiner.combine_section page_num st sec) := by
  obtain ⟨hfig, htbl, htotf, htott, hfn, htn⟩ := h
  obtain ⟨hf1, hf2, hf3⟩ := renumber_figures_spec page_num sec.figures st.figure_counter
  obtain ⟨ht1, ht2, ht3⟩ := renumber_tables_spec page_num sec.tables st.table_counter
  rcases hrf : ParallelResultCombiner.renumber_figures page_num st.figure_counter sec.figures
    with ⟨cf, figs⟩
  rcases hrt : ParallelResultCombiner.renumber_tables page_num st.table_counter sec.tables
    with ⟨ct, tbls⟩
  rw [hrf] at hf1 hf2 hf3
  rw [hrt] at ht1 ht2 ht3
  simp only at hf1 hf2 hf3 ht1 ht2 ht3
  simp only [ParallelResultCombiner.combine_section, hrf, hrt]
  refine ⟨?_, ?_, ?_, ?_, ?_, ?_⟩
  · simp only [allFigures, List.map_append, List.flatten_append, List.map_cons, List.map_nil,
      List.flatten_cons, List.flatten_nil, List.append_nil, fix_text_content_references_figures,
      List.map_append]
    simp only [allFigures] at hfig
    rw [hfig, hf2, hf1]
    have := List.range'_append 1 st.figure_counter sec.figures.length 1
    simp only [one_mul, Nat.add_comm 1 st.figure_counter] at this
    rw [this, Nat.add_comm sec.figures.length st.figure_counter]
  · simp only [allTables, List.map_append, List.flatten_append, List.map_cons, List.map_nil,
      List.flatten_cons, List.flatten_nil, List.append_nil, fix_text_content_references_tables,
      List.map_append]
    simp only [allTables] at htbl
    rw [htbl, ht2, ht1]
    have := List.range'_append 1 st.table_counter sec.tables.length 1
    simp only [one_mul, Nat.add_comm 1 st.table_counter] at this
    rw [this, Nat.add_comm sec.tables.length st.table_counter]
  · simp only [hf1, htotf]
  · simp only [ht1, htott]
  · intro s hs
    simp only [List.mem_append, List.mem_cons, List.not_mem_nil, or_false] at hs
    rcases hs with hs | hs
    · exact hfn s hs
    · subst hs
      rw [fix_text_content_references_figures]
      intro f hf
      exact (hf3 f hf).2
  · intro s hs
    simp only [List.mem_append, List.mem_cons, List.not_mem_nil, or_false] at hs
    rcases hs with hs | hs
    · exact htn s hs
    · subst hs
      rw [fix_text_content_references_tables]
      intro t ht
      exact (ht3 t ht).2

/-- A fold of section steps preserves the combination invariant. -/
theorem combine_sections_inv (page_num : Nat) :
  ∀ (secs : List SectionDict) (st : ParallelResultCombiner.CombineState), CombineInv st →
    CombineInv (secs.foldl (ParallelResultCombiner.combine_section page_num) st) := by
  intro secs
  induction secs with
  | nil => exact fun st h => h
  | cons s rest ih =>
    intro st h
    exact ih _ (combine_section_inv page_num st s h)

/-- The page loop preserves the combination invariant. -/
theorem combine_pages_inv :
  ∀ (prs : List PageResult) (st : ParallelResultCombiner.CombineState), CombineInv st →
    CombineInv (ParallelResultCombiner.combine_pages st prs) := by
  intro prs
  induction prs with
  | nil => exact fun st h => h
  | cons pr rest ih =>
    intro st h
    simp only [ParallelResultCombiner.combine_pages]
    apply ih
    cases hs : pr.success
    · simpa using h
    · cases hm : pr.metadata with
      | none => simpa [hm] using h
      | some secs => simpa [hm] using combine_sections_inv pr.page secs st h

/-- The page loop ignores pages that are skipped by the filter. -/
theorem combine_pages_filter :
  ∀ (prs : List PageResult) (st : ParallelResultCombiner.CombineState),
    ParallelResultCombiner.combine_pages st prs =
      ParallelResultCombiner.combine_pages st (prs.filter pageKept) := by
  intro prs
  induction prs with
  | nil => intro st; rfl
  | cons pr rest ih =>
    intro st
    simp only [ParallelResultCombiner.combine_pages, List.filter_cons]
    cases hs : pr.success
    · simp only [pageKept, hs, Bool.false_and, if_false, Bool.not_true]
      simpa using ih st
    · cases hm : pr.metadata with
      | none =>
        simp only [pageKept, hs, hm, Option.isSome_none, Bool.true_and, if_false]
        simpa using ih st
      | some secs =>
        simp only [pageKept, hs, hm, Option.isSome_some, Bool.true_and, if_true]
        simp only [ParallelResultCombiner.combine_pages, hs, hm, Bool.not_true,
          Bool.false_eq_true, if_false]
        exact ih _

/-- Both bounding-box extractors compute the same box, up to the legacy
record type. -/
theorem create_from_element_agree (e : PyElement) :
  BoundingBoxOperations.create_from_element e false =
    (BoundingBoxCalculator.extract_from_element e).map BoundingBoxLegacy.to_standard := by
  rcases hc : e.coords with _ | ⟨_ | ps⟩
  · simp [BoundingBoxOperations.create_from_element, BoundingBoxCalculator.extract_from_element, hc]
  · simp [BoundingBoxOperations.create_from_element, BoundingBoxCalculator.extract_from_element, hc]
  · simp only [BoundingBoxOperations.create_from_element,
      BoundingBoxCalculator.extract_from_element, hc]
    by_cases hlen : (ps.isEmpty || decide (ps.length < 2)) = true
    · simp [hlen]
    · simp [hlen, BoundingBoxLegacy.to_standard]

/-- On well-formed pages the two same-page tests agree. -/
theorem same_page_agree (e : PyElement) (p : Int) (h : pageWellFormed e = true) :
  CaptionDetector._is_on_same_page e p = CaptionExtractor._is_same_page e p := by
  rcases hattr : e.hasPageAttr with _ | _
  · simp [CaptionDetector._is_on_same_page, CaptionExtractor._is_same_page, hattr]
  · rcases hpn : e.pageNumber with _ | q
    · simp [pageWellFormed, hattr, hpn] at h
    · simp only [pageWellFormed, hattr, hpn, Bool.not_true, Bool.false_or] at h
      have hq : q ≠ 0 := by simpa using h
      simp only [CaptionDetector._is_on_same_page, CaptionExtractor._is_same_page, hattr,
        hpn, Bool.not_true, Bool.false_eq_true, if_false, ne_eq, hq, not_false_iff, if_true]
      by_cases hqp : q = p
      · simp [hqp]
      · simp [hqp, Option.some.injEq]

/-- The empty string matches no table keyword. -/
theorem table_caption_empty_false : CaptionExtractor._is_table_caption "" = false := by decide

/-- The empty string matches no figure keyword. -/
theorem figure_caption_empty_false : CaptionExtractor._is_figure_caption "" = false := by decide

/-- On `NarrativeText` elements the two description extractors agree. -/
theorem description_agree (e : PyElement) (t i : Nat) (h : e.cls = ElemClass.narrativeText) :
  CaptionDetector._extract_description_from_element e t i =
    CaptionExtractor._extract_description e i t := by
  simp only [CaptionDetector._extract_description_from_element,
    CaptionExtractor._extract_description, CaptionKeywords.DESCRIPTION_KEYWORDS]
  by_cases hd : ((i : Int) - (t : Int)).natAbs ≤ 2
  · rw [if_neg (by push_neg; exact ⟨h, by omega⟩), if_pos hd]
  · rw [if_pos (Or.inr (by omega)), if_neg hd]

/-- On other elements the detector's description extractor returns `none`. -/
theorem description_none (e : PyElement) (t i : Nat) (h : ¬e.cls = ElemClass.narrativeText) :
  CaptionDetector._extract_description_from_element e t i = none := by
  simp [CaptionDetector._extract_description_from_element, h]

/-- A nonempty string is not falsy. -/
theorem optStrFalsy_some_false (s : String) (h : s ≠ "") : optStrFalsy (some s) = false := by
  cases s with
  | mk l =>
    cases l with
    | nil => exact absurd rfl h
    | cons c cs => rfl

/-- A stored description is never the empty string. -/
theorem extract_description_ne_empty (el : PyElement) (i t : Nat) (s : String)
    (h : CaptionExtractor._extract_description el i t = some s) : s ≠ "" := by
  simp only [CaptionExtractor._extract_description] at h
  split_ifs at h with h1 h2
  · have hs : pyStrip el.text = s := by simpa using h
    intro hemp
    rw [hs, hemp] at h2
    exact absurd h2 (by decide)

/-- A string matching a table keyword is nonempty. -/
theorem table_caption_ne_empty (s : String) (h : CaptionExtractor._is_table_caption s = true) :
    s ≠ "" := by
  intro hemp
  rw [hemp] at h
  exact absurd h (by decide)

/-- A string matching a figure keyword is nonempty. -/
theorem figure_caption_ne_empty (s : String) (h : CaptionExtractor._is_figure_caption s = true) :
    s ≠ "" := by
  intro hemp
  rw [hemp] at h
  exact absurd h (by decide)

/-- Scanning the target index is a no-op for the detector. -/
theorem detectorStep_self (elements : List PyElement) (page : Int)
    (d : CaptionDetector.DetectorState) (t : Nat) :
    CaptionDetector.detectorStep elements t page d t = d := by
  simp [CaptionDetector.detectorStep]

/-- Scanning the target index is a no-op for the extractor. -/
theorem extractorStep_self (elements : List PyElement) (page : Int)
    (e : CaptionExtractor.ExtractorState) (t : Nat) :
    CaptionExtractor.extractorStep elements t page e t = e := by
  simp [CaptionExtractor.extractorStep]

/-- The detector's end-of-iteration description assignment is a no-op when
the candidate description is `none` and the current one is not an empty
string. -/
theorem detector_desc_noop (dcap : Option String) (ddesc : Option String)
    (dbb : Option BoundingBox) (dty : ElementType)
    (hdne : ∀ s, ddesc = some s → s ≠ "") :
    (if optStrFalsy ddesc = true
      then (⟨dcap, none, dbb, dty⟩ : CaptionDetector.DetectorState)
      else ⟨dcap, ddesc, dbb, dty⟩) = ⟨dcap, ddesc, dbb, dty⟩ := by
  cases ddesc with
  | none => simp [optStrFalsy]
  | some s => simp [optStrFalsy_some_false s (hdne s rfl)]

/-- The detector's step on a non-target, same-page position, written as a
case split on the caption-extraction result. -/
theorem detectorStep_run (elements : List PyElement) (t : Nat) (page : Int) (i : Nat)
    (dcap ddesc : Option String) (dbb : Option BoundingBox) (dty : ElementType)
    (hit : ¬i = t)
    (hsame : CaptionDetector._is_on_same_page (elements.getD i defaultElement) page = true) :
    CaptionDetector.detectorStep elements t page ⟨dcap, ddesc, dbb, dty⟩ i =
      (match CaptionDetector._extract_caption_from_element (elements.getD i defaultElement)
          t i dcap dty with
      | some (c, ty, bb) =>
        if optStrFalsy ddesc = true
        then ⟨some c,
          CaptionDetector._extract_description_from_element (elements.getD i defaultElement) t i,
          bb, ty⟩
        else ⟨some c, ddesc, bb, ty⟩
      | none =>
        if optStrFalsy ddesc = true
        then ⟨dcap,
          CaptionDetector._extract_description_from_element (elements.getD i defaultElement) t i,
          dbb, dty⟩
        else ⟨dcap, ddesc, dbb, dty⟩) := by
  simp only [CaptionDetector.detectorStep, if_neg hit, hsame, Bool.not_true,
    Bool.false_eq_true, if_false]
  rcases CaptionDetector._extract_caption_from_element (elements.getD i defaultElement)
    t i dcap dty with _ | ⟨c, ty, bb⟩ <;> rfl

/-- The extractor's step on a non-target, same-page position. -/
theorem extractorStep_run (elements : List PyElement) (t : Nat) (page : Int) (i : Nat)
    (ecap edesc : Option String) (ebb : Option BoundingBoxLegacy) (ety : String)
    (hit : ¬i = t)
    (hsame : CaptionExtractor._is_same_page (elements.getD i defaultElement) page = true) :
    CaptionExtractor.extractorStep elements t page ⟨ecap, edesc, ebb, ety⟩ i =
      (if (elements.getD i defaultElement).cls = ElemClass.title then
        match CaptionExtractor._extract_title_caption (elements.getD i defaultElement)
            i t ecap with
        | some (c, tg, bb) => ⟨some c, edesc, bb, tg⟩
        | none => ⟨ecap, edesc, ebb, ety⟩
      else if ((elements.getD i defaultElement).cls = ElemClass.narrativeText &&
          optStrFalsy edesc) = true then
        ⟨ecap, CaptionExtractor._extract_description (elements.getD i defaultElement) i t,
          ebb, ety⟩
      else if ((elements.getD i defaultElement).cls.isTextSubclass && optStrFalsy ecap)
          = true then
        match CaptionExtractor._extract_text_caption (elements.getD i defaultElement)
            i t ecap with
        | some (c, tg, bb) => ⟨some c, edesc, bb, tg⟩
        | none => ⟨ecap, edesc, ebb, ety⟩
      else ⟨ecap, edesc, ebb, ety⟩) := by
  simp only [CaptionExtractor.extractorStep, if_neg hit, hsame, Bool.not_true,
    Bool.false_eq_true, if_false]

/-- A `Title` with no matching keyword yields no caption in the detector. -/
theorem extract_caption_none_title (el : PyElement) (t i : Nat) (cap : Option String)
    (ty : ElementType) (hcls : el.cls = ElemClass.title)
    (htab : CaptionExtractor._is_table_caption (pyStrip el.text) = false)
    (hfig : CaptionExtractor._is_figure_caption (pyStrip el.text) = false) :
    CaptionDetector._extract_caption_from_element el t i cap ty = none := by
  simp only [CaptionExtractor._is_table_caption] at htab
  simp only [CaptionExtractor._is_figure_caption] at hfig
  simp only [CaptionDetector._extract_caption_from_element, if_pos hcls,
    CaptionDetector._process_title_element, htab, hfig, Bool.false_eq_true, if_false]

/-- A non-`Title` element with no table keyword yields no caption in the
detector. -/
theorem extract_caption_none_textlike (el : PyElement) (t i : Nat) (cap : Option String)
    (ty : ElementType) (hcls : ¬el.cls = ElemClass.title)
    (htab : CaptionExtractor._is_table_caption (pyStrip el.text) = false) :
    CaptionDetector._extract_caption_from_element el t i cap ty = none := by
  simp only [CaptionExtractor._is_table_caption] at htab
  simp only [CaptionDetector._extract_caption_from_element, if_neg hcls]
  by_cases hb : (el.cls.isTextSubclass && optStrFalsy cap) = true
  · simp only [if_pos hb, CaptionDetector._process_text_element, htab,
      Bool.false_eq_true, if_false]
  · simp only [if_neg hb]

/-- A non-`Text` element yields no caption in the detector. -/
theorem extract_caption_none_other (el : PyElement) (t i : Nat) (cap : Option String)
    (ty : ElementType) (hcls : el.cls = ElemClass.other) :
    CaptionDetector._extract_caption_from_element el t i cap ty = none := by
  simp only [CaptionDetector._extract_caption_from_element, hcls,
    ElemClass.isTextSubclass, Bool.false_and, Bool.false_eq_true, if_false]
  rw [if_neg (by decide : ¬(ElemClass.other = ElemClass.title))]

/-- With no prior caption, a table-keyword `Title` yields a table caption in
the detector. -/
theorem extract_caption_title_table (el : PyElement) (t i : Nat) (cap : Option String)
    (ty : ElementType) (hcls : el.cls = ElemClass.title)
    (hfalsy : optStrFalsy cap = true)
    (htab : CaptionExtractor._is_table_caption (pyStrip el.text) = true) :
    CaptionDetector._extract_caption_from_element el t i cap ty =
      some (pyStrip el.text, ElementType.table,
        BoundingBoxOperations.create_from_element el false) := by
  simp only [CaptionExtractor._is_table_caption] at htab
  simp only [CaptionDetector._extract_caption_from_element, if_pos hcls,
    CaptionDetector._process_title_element, htab, if_true,
    CaptionDetector._is_closer_match, hfalsy, Bool.true_or]

/-- With no prior caption, a figure-keyword `Title` yields a figure caption
in the detector. -/
theorem extract_caption_title_figure (el : PyElement) (t i : Nat) (cap : Option String)
    (ty : ElementType) (hcls : el.cls = ElemClass.title)
    (hfalsy : optStrFalsy cap = true)
    (htab : CaptionExtractor._is_table_caption (pyStrip el.text) = false)
    (hfig : CaptionExtractor._is_figure_caption (pyStrip el.text) = true) :
    CaptionDetector._extract_caption_from_element el t i cap ty =
      some (pyStrip el.text, ElementType.figure,
        BoundingBoxOperations.create_from_element el false) := by
  simp only [CaptionExtractor._is_table_caption] at htab
  simp only [CaptionExtractor._is_figure_caption] at hfig
  simp only [CaptionDetector._extract_caption_from_element, if_pos hcls,
    CaptionDetector._process_title_element, htab, hfig, Bool.false_eq_true, if_false, if_true,
    CaptionDetector._is_closer_match, hfalsy, Bool.true_or]

/-- With no prior caption, a table-keyword non-`Title` `Text` yields a table
caption in the detector. -/
theorem extract_caption_text_table (el : PyElement) (t i : Nat) (cap : Option String)
    (ty : ElementType) (hcls : ¬el.cls = ElemClass.title)
    (hsub : el.cls.isTextSubclass = true) (hfalsy : optStrFalsy cap = true)
    (htab : CaptionExtractor._is_table_caption (pyStrip el.text) = true) :
    CaptionDetector._extract_caption_from_element el t i cap ty =
      some (pyStrip el.text, ElementType.table,
        BoundingBoxOperations.create_from_element el false) := by
  simp only [CaptionExtractor._is_table_caption] at htab
  simp only [CaptionDetector._extract_caption_from_element, if_neg hcls, hsub, hfalsy,
    Bool.and_self, if_true, CaptionDetector._process_text_element, htab]

/-- A `Title` with no matching keyword yields no caption in the extractor. -/
theorem title_caption_none (el : PyElement) (i t : Nat) (cap : Option String)
    (htab : CaptionExtractor._is_table_caption (pyStrip el.text) = false)
    (hfig : CaptionExtractor._is_figure_caption (pyStrip el.text) = false) :
    CaptionExtractor._extract_title_caption el i t cap = none := by
  simp only [CaptionExtractor._extract_title_caption, htab, hfig,
    Bool.false_eq_true, if_false]

/-- With a falsy prior caption, a table-keyword `Title` yields a table
caption in the extractor. -/
theorem title_caption_table (el : PyElement) (i t : Nat) (cap : Option String)
    (hfalsy : optStrFalsy cap = true)
    (htab : CaptionExtractor._is_table_caption (pyStrip el.text) = true) :
    CaptionExtractor._extract_title_caption el i t cap =
      some (pyStrip el.text, "table", BoundingBoxCalculator.extract_from_element el) := by
  simp only [CaptionExtractor._extract_title_caption, htab, if_true,
    CaptionExtractor._is_closer_than_existing, hfalsy, Bool.true_or]

/-- With a falsy prior caption, a figure-keyword `Title` yields a figure
caption in the extractor. -/
theorem title_caption_figure (el : PyElement) (i t : Nat) (cap : Option String)
    (hfalsy : optStrFalsy cap = true)
    (htab : CaptionExtractor._is_table_caption (pyStrip el.text) = false)
    (hfig : CaptionExtractor._is_figure_caption (pyStrip el.text) = true) :
    CaptionExtractor._extract_title_caption el i t cap =
      some (pyStrip el.text, "figure", BoundingBoxCalculator.extract_from_element el) := by
  simp only [CaptionExtractor._extract_title_caption, htab, hfig, Bool.false_eq_true,
    if_false, if_true, CaptionExtractor._is_closer_than_existing, hfalsy, Bool.true_or]

/-- A text element with no table keyword yields no caption in the
extractor. -/
theorem text_caption_none (el : PyElement) (i t : Nat) (cap : Option String)
    (htab : CaptionExtractor._is_table_caption (pyStrip el.text) = false) :
    CaptionExtractor._extract_text_caption el i t cap = none := by
  simp only [CaptionExtractor._extract_text_caption, htab, Bool.false_eq_true, if_false]

/-- With a falsy prior caption, a table-keyword text element yields a table
caption in the extractor. -/
theorem text_caption_table (el : PyElement) (i t : Nat) (cap : Option String)
    (hfalsy : optStrFalsy cap = true)
    (htab : CaptionExtractor._is_table_caption (pyStrip el.text) = true) :
    CaptionExtractor._extract_text_caption el i t cap =
      some (pyStrip el.text, "table", BoundingBoxCalculator.extract_from_element el) := by
  simp only [CaptionExtractor._extract_text_caption, htab, if_true,
    CaptionExtractor._is_closer_than_existing, hfalsy, Bool.true_or]

/-- Non-candidate step agreement for non-`Title`, non-`NarrativeText` text
subclasses (`Text`, `Image`, `Table`). -/
theorem step_agree_noncand_textlike (elements : List PyElement) (t : Nat) (page : Int)
    (i : Nat) (dcap ddesc : Option String) (dbb : Option BoundingBox) (dty : ElementType)
    (ebb : Option BoundingBoxLegacy) (ety : String)
    (hdne : ∀ s, ddesc = some s → s ≠ "")
    (hit : ¬i = t)
    (hsame : CaptionDetector._is_on_same_page (elements.getD i defaultElement) page = true)
    (hsame2 : CaptionExtractor._is_same_page (elements.getD i defaultElement) page = true)
    (hne_title : ¬(elements.getD i defaultElement).cls = ElemClass.title)
    (hne_narr : ¬(elements.getD i defaultElement).cls = ElemClass.narrativeText)
    (hsub : (elements.getD i defaultElement).cls.isTextSubclass = true)
    (htab : CaptionExtractor._is_table_caption
      (pyStrip (elements.getD i defaultElement).text) = false) :
    CaptionDetector.detectorStep elements t page ⟨dcap, ddesc, dbb, dty⟩ i =
        ⟨dcap, ddesc, dbb, dty⟩ ∧
    CaptionExtractor.extractorStep elements t page ⟨dcap, ddesc, ebb, ety⟩ i =
        ⟨dcap, ddesc, ebb, ety⟩ := by
  have hnarrb : (decide ((elements.getD i defaultElement).cls = ElemClass.narrativeText) &&
      optStrFalsy ddesc) = false := by
    rw [decide_eq_false hne_narr, Bool.false_and]
  constructor
  · rw [detectorStep_run elements t page i dcap ddesc dbb dty hit hsame,
      extract_caption_none_textlike _ _ _ _ _ hne_title htab]
    dsimp only
    rw [description_none _ _ _ hne_narr]
    exact detector_desc_noop dcap ddesc dbb dty hdne
  · rw [extractorStep_run elements t page i dcap ddesc ebb ety hit hsame2,
      if_neg hne_title,
      if_neg (show ¬((decide ((elements.getD i defaultElement).cls =
          ElemClass.narrativeText) && optStrFalsy ddesc) = true) from by
        rw [hnarrb]; exact Bool.false_ne_true)]
    by_cases hfc : optStrFalsy dcap = true
    · rw [if_pos (show ((elements.getD i defaultElement).cls.isTextSubclass &&
          optStrFalsy dcap) = true from by rw [hsub, hfc]; rfl),
        text_caption_none _ _ _ _ htab]
    · rw [Bool.not_eq_true] at hfc
      rw [if_neg (show ¬(((elements.getD i defaultElement).cls.isTextSubclass &&
          optStrFalsy dcap) = true) from by
        rw [hfc, Bool.and_false]; exact Bool.false_ne_true)]

/-- Scanning a non-candidate position preserves the state correspondence
and leaves the caption unchanged. -/
theorem step_agree_noncand (elements : List PyElement) (t : Nat) (page : Int) (i : Nat)
    (d : CaptionDetector.DetectorState) (e : CaptionExtractor.ExtractorState)
    (hrel : StateRel d e)
    (hpage : pageWellFormed (elements.getD i defaultElement) = true)
    (hnarr : (elements.getD i defaultElement).cls = ElemClass.narrativeText →
      CaptionExtractor._is_table_caption (pyStrip (elements.getD i defaultElement).text) = false)
    (hc : isCandidateAt elements t page i = false) :
    StateRel (CaptionDetector.detectorStep elements t page d i)
      (CaptionExtractor.extractorStep elements t page e i) ∧
    (CaptionDetector.detectorStep elements t page d i).caption = d.caption := by
  obtain ⟨dcap, ddesc, dbb, dty⟩ := d
  obtain ⟨ecap, edesc, ebb, ety⟩ := e
  obtain ⟨hcap, hdesc, hbb, hty, hcne, hdne⟩ := hrel
  simp only at hcap hdesc hbb hty hcne hdne
  subst hcap
  subst hdesc
  by_cases hit : i = t
  · subst hit
    rw [detectorStep_self, extractorStep_self]
    exact ⟨⟨rfl, rfl, hbb, hty, hcne, hdne⟩, rfl⟩
  have hsp := same_page_agree (elements.getD i defaultElement) page hpage
  by_cases hsame : CaptionDetector._is_on_same_page (elements.getD i defaultElement) page = true
  case neg =>
    rw [Bool.not_eq_true] at hsame
    have hsame2 : CaptionExtractor._is_same_page (elements.getD i defaultElement) page = false := by
      rw [← hsp]
      exact hsame
    have hD : CaptionDetector.detectorStep elements t page ⟨dcap, ddesc, dbb, dty⟩ i =
        ⟨dcap, ddesc, dbb, dty⟩ := by
      simp only [CaptionDetector.detectorStep, if_neg hit, hsame, Bool.not_false, if_true]
    have hE : CaptionExtractor.extractorStep elements t page ⟨dcap, ddesc, ebb, ety⟩ i =
        ⟨dcap, ddesc, ebb, ety⟩ := by
      simp only [CaptionExtractor.extractorStep, if_neg hit, hsame2, Bool.not_false, if_true]
    rw [hD, hE]
    exact ⟨⟨rfl, rfl, hbb, hty, hcne, hdne⟩, rfl⟩
  case pos =>
  have hsame2 : CaptionExtractor._is_same_page (elements.getD i defaultElement) page = true := by
    rw [← hsp]
    exact hsame
  have hcc : isCaptionCandidate (elements.getD i defaultElement) = false := by
    simp only [isCandidateAt, Bool.and_eq_false_iff, decide_eq_false_iff_not, not_not] at hc
    rcases hc with (h | h) | h
    · exact absurd h hit
    · exact absurd hsame (by rw [h]; exact Bool.false_ne_true)
    · exact h
  cases hcls : (elements.getD i defaultElement).cls with
  | title =>
    have hkw : CaptionExtractor._is_table_caption
          (pyStrip (elements.getD i defaultElement).text) = false ∧
        CaptionExtractor._is_figure_caption
          (pyStrip (elements.getD i defaultElement).text) = false := by
      simp only [isCaptionCandidate, hcls, Bool.or_eq_false_iff, Bool.and_eq_false_iff,
        decide_eq_false_iff_not] at hcc
      rcases hcc with ⟨hcc1 | hcc1, _⟩
      · exact absurd trivial hcc1
      · exact hcc1
    obtain ⟨htab, hfig⟩ := hkw
    have hD : CaptionDetector.detectorStep elements t page ⟨dcap, ddesc, dbb, dty⟩ i =
        ⟨dcap, ddesc, dbb, dty⟩ := by
      rw [detectorStep_run elements t page i dcap ddesc dbb dty hit hsame,
        extract_caption_none_title _ _ _ _ _ hcls htab hfig]
      dsimp only
      rw [description_none _ _ _ (by rw [hcls]; decide)]
      exact detector_desc_noop dcap ddesc dbb dty hdne
    have hE : CaptionExtractor.extractorStep elements t page ⟨dcap, ddesc, ebb, ety⟩ i =
        ⟨dcap, ddesc, ebb, ety⟩ := by
      rw [extractorStep_run elements t page i dcap ddesc ebb ety hit hsame2, if_pos hcls,
        title_caption_none _ _ _ _ htab hfig]
    rw [hD, hE]
    exact ⟨⟨rfl, rfl, hbb, hty, hcne, hdne⟩, rfl⟩
  | narrativeText =>
    have htab := hnarr hcls
    have hD1 := detectorStep_run elements t page i dcap ddesc dbb dty hit hsame
    rw [extract_caption_none_textlike _ _ _ _ _ (by rw [hcls]; decide) htab] at hD1
    dsimp only at hD1
    rw [description_agree _ t i hcls] at hD1
    have hE1 := extractorStep_run elements t page i dcap ddesc ebb ety hit hsame2
    rw [if_neg (show ¬(elements.getD i defaultElement).cls = ElemClass.title from by
      rw [hcls]; decide)] at hE1
    by_cases hfd : optStrFalsy ddesc = true
    · rw [if_pos hfd] at hD1
      rw [if_pos (show ((decide ((elements.getD i defaultElement).cls =
          ElemClass.narrativeText) && optStrFalsy ddesc) = true) from by
          rw [decide_eq_true hcls, hfd, Bool.and_self])] at hE1
      rw [hD1, hE1]
      refine ⟨⟨rfl, rfl, hbb, hty, hcne, ?_⟩, rfl⟩
      intro s hs
      exact extract_description_ne_empty _ _ _ s hs
    · rw [Bool.not_eq_true] at hfd
      rw [if_neg (by rw [hfd]; exact Bool.false_ne_true)] at hD1
      rw [if_neg (show ¬((decide ((elements.getD i defaultElement).cls =
          ElemClass.narrativeText) && optStrFalsy ddesc) = true) from by
          rw [hfd, Bool.and_false]; exact Bool.false_ne_true)] at hE1
      by_cases hfc : optStrFalsy dcap = true
      · rw [if_pos (show (((elements.getD i defaultElement).cls.isTextSubclass &&
            optStrFalsy dcap) = true) from by rw [hcls, hfc]; decide),
          text_caption_none _ _ _ _ htab] at hE1
        rw [hD1, hE1]
        exact ⟨⟨rfl, rfl, hbb, hty, hcne, hdne⟩, rfl⟩
      · rw [Bool.not_eq_true] at hfc
        rw [if_neg (show ¬(((elements.getD i defaultElement).cls.isTextSubclass &&
            optStrFalsy dcap) = true) from by
            rw [hfc, Bool.and_false]; exact Bool.false_ne_true)] at hE1
        rw [hD1, hE1]
        exact ⟨⟨rfl, rfl, hbb, hty, hcne, hdne⟩, rfl⟩
  | text =>
    have htab : CaptionExtractor._is_table_caption
        (pyStrip (elements.getD i defaultElement).text) = false := by
      simp only [isCaptionCandidate, hcls, Bool.or_eq_false_iff, Bool.and_eq_false_iff,
        decide_eq_false_iff_not, ElemClass.isTextSubclass] at hcc
      rcases hcc with ⟨_, (h | h) | h⟩
      · exact absurd (by decide) h
      · exact absurd h (by decide)
      · exact h
    obtain ⟨hD, hE⟩ := step_agree_noncand_textlike elements t page i dcap ddesc dbb dty
      ebb ety hdne hit hsame hsame2 (by rw [hcls]; decide) (by rw [hcls]; decide)
      (by rw [hcls]; decide) htab
    rw [hD, hE]
    exact ⟨⟨rfl, rfl, hbb, hty, hcne, hdne⟩, rfl⟩
  | image =>
    have htab : CaptionExtractor._is_table_caption
        (pyStrip (elements.getD i defaultElement).text) = false := by
      simp only [isCaptionCandidate, hcls, Bool.or_eq_false_iff, Bool.and_eq_false_iff,
        decide_eq_false_iff_not, ElemClass.isTextSubclass] at hcc
      rcases hcc with ⟨_, (h | h) | h⟩
      · exact absurd (by decide) h
      · exact absurd h (by decide)
      · exact h
    obtain ⟨hD, hE⟩ := step_agree_noncand_textlike elements t page i dcap ddesc dbb dty
      ebb ety hdne hit hsame hsame2 (by rw [hcls]; decide) (by rw [hcls]; decide)
      (by rw [hcls]; decide) htab
    rw [hD, hE]
    exact ⟨⟨rfl, rfl, hbb, hty, hcne, hdne⟩, rfl⟩
  | table =>
    have htab : CaptionExtractor._is_table_caption
        (pyStrip (elements.getD i defaultElement).text) = false := by
      simp only [isCaptionCandidate, hcls, Bool.or_eq_false_iff, Bool.and_eq_false_iff,
        decide_eq_false_iff_not, ElemClass.isTextSubclass] at hcc
      rcases hcc with ⟨_, (h | h) | h⟩
      · exact absurd (by decide) h
      · exact absurd h (by decide)
      · exact h
    obtain ⟨hD, hE⟩ := step_agree_noncand_textlike elements t page i dcap ddesc dbb dty
      ebb ety hdne hit hsame hsame2 (by rw [hcls]; decide) (by rw [hcls]; decide)
      (by rw [hcls]; decide) htab
    rw [hD, hE]
    exact ⟨⟨rfl, rfl, hbb, hty, hcne, hdne⟩, rfl⟩
  | other =>
    have hD : CaptionDetector.detectorStep elements t page ⟨dcap, ddesc, dbb, dty⟩ i =
        ⟨dcap, ddesc, dbb, dty⟩ := by
      rw [detectorStep_run elements t page i dcap ddesc dbb dty hit hsame,
        extract_caption_none_other _ _ _ _ _ hcls]
      dsimp only
      rw [description_none _ _ _ (by rw [hcls]; decide)]
      exact detector_desc_noop dcap ddesc dbb dty hdne
    have hE : CaptionExtractor.extractorStep elements t page ⟨dcap, ddesc, ebb, ety⟩ i =
        ⟨dcap, ddesc, ebb, ety⟩ := by
      rw [extractorStep_run elements t page i dcap ddesc ebb ety hit hsame2,
        if_neg (show ¬(elements.getD i defaultElement).cls = ElemClass.title from by
          rw [hcls]; decide),
        if_neg (show ¬((decide ((elements.getD i defaultElement).cls =
            ElemClass.narrativeText) && optStrFalsy ddesc) = true) from by
          rw [decide_eq_false (show ¬(elements.getD i defaultElement).cls =
            ElemClass.narrativeText from by rw [hcls]; decide), Bool.false_and]
          exact Bool.false_ne_true),
        if_neg (show ¬(((elements.getD i defaultElement).cls.isTextSubclass &&
            optStrFalsy dcap) = true) from by
          rw [hcls, show ElemClass.other.isTextSubclass = false from rfl, Bool.false_and]
          exact Bool.false_ne_true)]
    rw [hD, hE]
    exact ⟨⟨rfl, rfl, hbb, hty, hcne, hdne⟩, rfl⟩

/-- Scanning the (unique) candidate position when no caption has been found
yet produces corresponding states in both implementations. -/
theorem step_agree_cand (elements : List PyElement) (t : Nat) (page : Int) (i : Nat)
    (d : CaptionDetector.DetectorState) (e : CaptionExtractor.ExtractorState)
    (hrel : StateRel d e)
    (hpage : pageWellFormed (elements.getD i defaultElement) = true)
    (hnarr : (elements.getD i defaultElement).cls = ElemClass.narrativeText →
      CaptionExtractor._is_table_caption (pyStrip (elements.getD i defaultElement).text) = false)
    (hc : isCandidateAt elements t page i = true)
    (hcap0 : d.caption = none) :
    StateRel (CaptionDetector.detectorStep elements t page d i)
      (CaptionExtractor.extractorStep elements t page e i) := by
  obtain ⟨dcap, ddesc, dbb, dty⟩ := d
  obtain ⟨ecap, edesc, ebb, ety⟩ := e
  obtain ⟨hcap, hdesc, hbb, hty, hcne, hdne⟩ := hrel
  simp only at hcap hdesc hbb hty hcne hdne hcap0
  subst hcap
  subst hdesc
  subst hcap0
  simp only [isCandidateAt, Bool.and_eq_true, decide_eq_true_eq] at hc
  obtain ⟨⟨hit, hsame⟩, hcc⟩ := hc
  have hsame2 : CaptionExtractor._is_same_page (elements.getD i defaultElement) page = true := by
    rw [← same_page_agree (elements.getD i defaultElement) page hpage]
    exact hsame
  simp only [isCaptionCandidate, Bool.or_eq_true, Bool.and_eq_true, decide_eq_true_eq] at hcc
  rcases hcc with ⟨hcls, hkw⟩ | ⟨⟨hne_title, hsub⟩, htab⟩
  · by_cases hta : CaptionExtractor._is_table_caption
        (pyStrip (elements.getD i defaultElement).text) = true
    · have hD : CaptionDetector.detectorStep elements t page ⟨none, ddesc, dbb, dty⟩ i =
          ⟨some (pyStrip (elements.getD i defaultElement).text), ddesc,
            BoundingBoxOperations.create_from_element (elements.getD i defaultElement) false,
            ElementType.table⟩ := by
        rw [detectorStep_run elements t page i none ddesc dbb dty hit hsame,
          extract_caption_title_table _ t i none dty hcls rfl hta]
        dsimp only
        rw [description_none _ _ _ (by rw [hcls]; decide)]
        exact detector_desc_noop _ _ _ _ hdne
      have hE : CaptionExtractor.extractorStep elements t page ⟨none, ddesc, ebb, ety⟩ i =
          ⟨some (pyStrip (elements.getD i defaultElement).text), ddesc,
            BoundingBoxCalculator.extract_from_element (elements.getD i defaultElement),
            "table"⟩ := by
        rw [extractorStep_run elements t page i none ddesc ebb ety hit hsame2, if_pos hcls,
          title_caption_table _ i t none rfl hta]
      rw [hD, hE]
      refine ⟨rfl, rfl, create_from_element_agree _, rfl, ?_, hdne⟩
      intro s hs
      have hts : pyStrip (elements.getD i defaultElement).text = s := by simpa using hs
      rw [← hts]
      exact table_caption_ne_empty _ hta
    · rw [Bool.not_eq_true] at hta
      have hfig : CaptionExtractor._is_figure_caption
          (pyStrip (elements.getD i defaultElement).text) = true := by
        rcases hkw with h | h
        · rw [hta] at h
          exact absurd h Bool.false_ne_true
        · exact h
      have hD : CaptionDetector.detectorStep elements t page ⟨none, ddesc, dbb, dty⟩ i =
          ⟨some (pyStrip (elements.getD i defaultElement).text), ddesc,
            BoundingBoxOperations.create_from_element (elements.getD i defaultElement) false,
            ElementType.figure⟩ := by
        rw [detectorStep_run elements t page i none ddesc dbb dty hit hsame,
          extract_caption_title_figure _ t i none dty hcls rfl hta hfig]
        dsimp only
        rw [description_none _ _ _ (by rw [hcls]; decide)]
        exact detector_desc_noop _ _ _ _ hdne
      have hE : CaptionExtractor.extractorStep elements t page ⟨none, ddesc, ebb, ety⟩ i =
          ⟨some (pyStrip (elements.getD i defaultElement).text), ddesc,
            BoundingBoxCalculator.extract_from_element (elements.getD i defaultElement),
            "figure"⟩ := by
        rw [extractorStep_run elements t page i none ddesc ebb ety hit hsame2, if_pos hcls,
          title_caption_figure _ i t none rfl hta hfig]
      rw [hD, hE]
      refine ⟨rfl, rfl, create_from_element_agree _, rfl, ?_, hdne⟩
      intro s hs
      have hts : pyStrip (elements.getD i defaultElement).text = s := by simpa using hs
      rw [← hts]
      exact figure_caption_ne_empty _ hfig
  · have hne_narr : ¬(elements.getD i defaultElement).cls = ElemClass.narrativeText := by
      intro h
      rw [hnarr h] at htab
      exact Bool.false_ne_true htab
    have hD : CaptionDetector.detectorStep elements t page ⟨none, ddesc, dbb, dty⟩ i =
        ⟨some (pyStrip (elements.getD i defaultElement).text), ddesc,
          BoundingBoxOperations.create_from_element (elements.getD i defaultElement) false,
          ElementType.table⟩ := by
      rw [detectorStep_run elements t page i none ddesc dbb dty hit hsame,
        extract_caption_text_table _ t i none dty hne_title hsub rfl htab]
      dsimp only
      rw [description_none _ _ _ hne_narr]
      exact detector_desc_noop _ _ _ _ hdne
    have hE : CaptionExtractor.extractorStep elements t page ⟨none, ddesc, ebb, ety⟩ i =
        ⟨some (pyStrip (elements.getD i defaultElement).text), ddesc,
          BoundingBoxCalculator.extract_from_element (elements.getD i defaultElement),
          "table"⟩ := by
      rw [extractorStep_run elements t page i none ddesc ebb ety hit hsame2,
        if_neg hne_title,
        if_neg (show ¬((decide ((elements.getD i defaultElement).cls =
            ElemClass.narrativeText) && optStrFalsy ddesc) = true) from by
          rw [decide_eq_false hne_narr, Bool.false_and]
          exact Bool.false_ne_true),
        if_pos (show (((elements.getD i defaultElement).cls.isTextSubclass &&
            optStrFalsy none) = true) from by rw [hsub]; rfl),
        text_caption_table _ i t none rfl htab]
    rw [hD, hE]
    refine ⟨rfl, rfl, create_from_element_agree _, rfl, ?_, hdne⟩
    intro s hs
    have hts : pyStrip (elements.getD i defaultElement).text = s := by simpa using hs
    rw [← hts]
    exact table_caption_ne_empty _ htab

/-- Fold-level agreement: scanning any index list with at most one caption
candidate (and none at all once a caption is present) keeps the two
implementations' states in correspondence. -/
theorem scan_agree (elements : List PyElement) (t : Nat) (page : Int) :
  ∀ (L : List Nat) (d : CaptionDetector.DetectorState) (e : CaptionExtractor.ExtractorState),
    StateRel d e →
    (∀ i ∈ L, pageWellFormed (elements.getD i defaultElement) = true) →
    (∀ i ∈ L, (elements.getD i defaultElement).cls = ElemClass.narrativeText →
      CaptionExtractor._is_table_caption
        (pyStrip (elements.getD i defaultElement).text) = false) →
    L.countP (fun j => isCandidateAt elements t page j) ≤ 1 →
    (d.caption ≠ none → L.countP (fun j => isCandidateAt elements t page j) = 0) →
    StateRel (L.foldl (CaptionDetector.detectorStep elements t page) d)
      (L.foldl (CaptionExtractor.extractorStep elements t page) e) := by
  intro L
  induction L with
  | nil =>
    intro d e hrel _ _ _ _
    exact hrel
  | cons i L ih =>
    intro d e hrel hpage hnarr hcount hcap
    simp only [List.foldl_cons]
    have hpage_i := hpage i (List.mem_cons_self i L)
    have hnarr_i := hnarr i (List.mem_cons_self i L)
    cases hcand : isCandidateAt elements t page i with
    | false =>
      obtain ⟨hrel2, hcappres⟩ :=
        step_agree_noncand elements t page i d e hrel hpage_i hnarr_i hcand
      have hcnt : (i :: L).countP (fun j => isCandidateAt elements t page j) =
          L.countP (fun j => isCandidateAt elements t page j) := by
        simp [List.countP_cons, hcand]
      rw [hcnt] at hcount
      refine ih _ _ hrel2 (fun j hj => hpage j (List.mem_cons_of_mem _ hj))
        (fun j hj => hnarr j (List.mem_cons_of_mem _ hj)) hcount ?_
      intro hne
      rw [hcappres] at hne
      have h0 := hcap hne
      rw [hcnt] at h0
      exact h0
    | true =>
      have hcnt : (i :: L).countP (fun j => isCandidateAt elements t page j) =
          L.countP (fun j => isCandidateAt elements t page j) + 1 := by
        simp [List.countP_cons, hcand]
      have hL0 : L.countP (fun j => isCandidateAt elements t page j) = 0 := by
        rw [hcnt] at hcount
        omega
      have hd0 : d.caption = none := by
        by_contra hne
        have h0 := hcap hne
        rw [hcnt, hL0] at h0
        exact absurd h0 (by omega)
      have hrel2 := step_agree_cand elements t page i d e hrel hpage_i hnarr_i hcand hd0
      refine ih _ _ hrel2 (fun j hj => hpage j (List.mem_cons_of_mem _ hj))
        (fun j hj => hnarr j (List.mem_cons_of_mem _ hj)) (by rw [hL0]; omega) ?_
      intro _
      exact hL0

/-! ## Claims -/

/-- Claim C1: `combine_page_results` skips failed or metadata-less pages;
over the included pages in order it assigns figures the consecutive global
indices `1..total_figures` and tables `1..total_tables` (hence globally
unique indices), rewrites filenames and paths to the
`page{P}_fig{G}.png` / `page{P}_table{G}` formats, and reports
`total_pages` = number of inputs, `successful_pages` = number of successes,
and totals equal to the counts of included items. -/
theorem C1_combine_page_results_spec :
  ∀ (pdf_name : String) (page_results : List PageResult),
    (ParallelResultCombiner.combine_page_results pdf_name page_results).structure_list =
      (ParallelResultCombiner.combine_page_results pdf_name
        (page_results.filter pageKept)).structure_list ∧
    (allFigures (ParallelResultCombiner.combine_page_results pdf_name
          page_results).structure_list).map FigureDict.index =
      List.range' 1 (ParallelResultCombiner.combine_page_results pdf_name
        page_results).extraction_info.total_figures ∧
    (allTables (ParallelResultCombiner.combine_page_results pdf_name
          page_results).structure_list).map TableDict.index =
      List.range' 1 (ParallelResultCombiner.combine_page_results pdf_name
        page_results).extraction_info.total_tables ∧
    ((allFigures (ParallelResultCombiner.combine_page_results pdf_name
          page_results).structure_list).map FigureDict.index).Nodup ∧
    ((allTables (ParallelResultCombiner.combine_page_results pdf_name
          page_results).structure_list).map TableDict.index).Nodup ∧
    FigureNamesOK (ParallelResultCombiner.combine_page_results pdf_name
      page_results).structure_list ∧
    TableNamesOK (ParallelResultCombiner.combine_page_results pdf_name
      page_results).structure_list ∧
    (ParallelResultCombiner.combine_page_results pdf_name
      page_results).extraction_info.total_pages = page_results.length ∧
    (ParallelResultCombiner.combine_page_results pdf_name
        page_results).extraction_info.successful_pages =
      (page_results.filter (fun r => r.success)).length ∧
    (ParallelResultCombiner.combine_page_results pdf_name
        page_results).extraction_info.total_figures =
      (allFigures (ParallelResultCombiner.combine_page_results pdf_name
        page_results).structure_list).length ∧
    (ParallelResultCombiner.combine_page_results pdf_name
        page_results).extraction_info.total_tables =
      (allTables (ParallelResultCombiner.combine_page_results pdf_name
        page_results).structure_list).length ∧
    (ParallelResultCombiner.combine_page_results pdf_name
        page_results).extraction_info.total_sections =
      (ParallelResultCombiner.combine_page_results pdf_name
        page_results).structure_list.length ∧
    (ParallelResultCombiner.combine_page_results pdf_name
      page_results).extraction_info.source_pdf = pdf_name := by
  intro pdf_name page_results
  have hInit : CombineInv
      { figure_counter := 0, table_counter := 0, section_counter := 0,
        total_figures := 0, total_tables := 0, combined_structure := [] } := by
    refine ⟨rfl, rfl, rfl, rfl, ?_, ?_⟩ <;> intro s hs <;> simp at hs
  obtain ⟨h1, h2, h3, h4, h5, h6⟩ := combine_pages_inv page_results _ hInit
  have hlenf := congrArg List.length h1
  have hlent := congrArg List.length h2
  simp only [List.length_map, List.length_range'] at hlenf hlent
  refine ⟨?_, ?_, ?_, ?_, ?_, h5, h6, rfl, rfl, ?_, ?_, rfl, rfl⟩
  · exact congrArg ParallelResultCombiner.CombineState.combined_structure
      (combine_pages_filter page_results _)
  · dsimp only [ParallelResultCombiner.combine_page_results]
    rw [h3]
    exact h1
  · dsimp only [ParallelResultCombiner.combine_page_results]
    rw [h4]
    exact h2
  · dsimp only [ParallelResultCombiner.combine_page_results]
    rw [h1]
    exact List.nodup_range' _ _
  · dsimp only [ParallelResultCombiner.combine_page_results]
    rw [h2]
    exact List.nodup_range' _ _
  · dsimp only [ParallelResultCombiner.combine_page_results]
    rw [h3]
    exact hlenf.symm
  · dsimp only [ParallelResultCombiner.combine_page_results]
    rw [h4]
    exact hlent.symm

/-- Claim C2 counterexample: with two figure-keyword titles in the search
window (indices 0 and 2, target index 3), `CaptionDetector` keeps the first
title's caption while `CaptionExtractor` replaces it with the later, closer
one, so the two implementations do not behave identically. -/
theorem C2_caption_counterexample :
  (CaptionDetector.find_caption_and_description twoTitleElements 3 1).1 = some "Figure A" ∧
  (CaptionExtractor.find_for_element twoTitleElements 3 1).text = some "Figure B" ∧
  (some "Figure A" : Option String) ≠ some "Figure B" := by
  refine ⟨by decide, by decide, by decide⟩

/-- Claim C2 (amended): the two caption implementations agree — same
caption, same description, same caption-title box up to the legacy record,
and same type up to the enum's string value — whenever every element's page
attribute is well formed, no `NarrativeText` matches a table keyword, and
the search window contains at most one caption candidate. In general they
differ: `CaptionDetector` keeps the first caption found (its closer-match
test never replaces), while `CaptionExtractor` lets a later `Title`
candidate within 2 positions of the target replace an earlier caption. -/
theorem C2_caption_implementations_agree (elements : List PyElement) (element_index : Nat)
    (element_page : Int)
    (hpage : ∀ e ∈ elements, pageWellFormed e = true)
    (hnarr : ∀ e ∈ elements, e.cls = ElemClass.narrativeText →
      CaptionExtractor._is_table_caption (pyStrip e.text) = false)
    (hcand : (windowIndices elements element_index).countP
      (fun j => isCandidateAt elements element_index element_page j) ≤ 1) :
    (CaptionDetector.find_caption_and_description elements element_index element_page).1 =
      (CaptionExtractor.find_for_element elements element_index element_page).text ∧
    (CaptionDetector.find_caption_and_description elements element_index element_page).2.1 =
      (CaptionExtractor.find_for_element elements element_index element_page).description ∧
    (CaptionDetector.find_caption_and_description elements element_index element_page).2.2.1 =
      (CaptionExtractor.find_for_element elements element_index
        element_page).bbox.map BoundingBoxLegacy.to_standard ∧
    (CaptionDetector.find_caption_and_description elements element_index
        element_page).2.2.2.toTag =
      (CaptionExtractor.find_for_element elements element_index element_page).caption_type := by
  have hmem : ∀ i ∈ windowIndices elements element_index, i < elements.length := by
    intro i hi
    simp only [windowIndices, List.mem_range'_1] at hi
    have hminle := Nat.min_le_left elements.length
      (element_index + PDFConstants.CAPTION_SEARCH_RANGE + 1)
    omega
  have hget : ∀ i ∈ windowIndices elements element_index,
      elements.getD i defaultElement ∈ elements := by
    intro i hi
    rw [List.getD_eq_getElem elements defaultElement (hmem i hi)]
    exact List.getElem_mem _
  have hscan := scan_agree elements element_index element_page
    (windowIndices elements element_index)
    ⟨none, none, none, ElementType.unknown⟩ ⟨none, none, none, "unknown"⟩
    ⟨rfl, rfl, rfl, rfl, fun s h => Option.noConfusion h, fun s h => Option.noConfusion h⟩
    (fun i hi => hpage _ (hget i hi))
    (fun i hi => hnarr _ (hget i hi))
    hcand
    (fun hne => absurd rfl hne)
  obtain ⟨h1, h2, h3, h4, _, _⟩ := hscan
  exact ⟨h1, h2, h3, h4⟩

/-- Claim C2 (amended) witness: with a single figure-keyword title in the
window, both implementations return that caption, no description, no box,
and the figure type. -/
theorem C2_caption_implementations_agree_witness :
  (CaptionDetector.find_caption_and_description oneTitleElements 2 1).1 =
    (CaptionExtractor.find_for_element oneTitleElements 2 1).text ∧
  (CaptionDetector.find_caption_and_description oneTitleElements 2 1).2.1 =
    (CaptionExtractor.find_for_element oneTitleElements 2 1).description ∧
  (CaptionDetector.find_caption_and_description oneTitleElements 2 1).2.2.1 =
    (CaptionExtractor.find_for_element oneTitleElements 2 1).bbox.map
      BoundingBoxLegacy.to_standard ∧
  (CaptionDetector.find_caption_and_description oneTitleElements 2 1).2.2.2.toTag =
    (CaptionExtractor.find_for_element oneTitleElements 2 1).caption_type :=
  C2_caption_implementations_agree oneTitleElements 2 1 (by decide) (by decide) (by decide)

/-- Claim C3: a classified figure with a bounding box is kept exactly when
`NOT ((width < 100 AND height < 100) OR area < 20000)`; a 50×500 figure
(area 25000) is kept, a 50×50 figure is rejected; both the single-page
extractor's `_is_valid_figure_size` and the hybrid extractor's
`_should_keep_figure` apply this predicate. -/
theorem C3_figure_size_filter_spec :
  (∀ b : BoundingBox,
    PDFSimpleExtractor._is_valid_figure_size (some b) = true ↔
      ¬((b.width < 100 ∧ b.height < 100) ∨ b.area < 20000)) ∧
  (∀ d : BBoxDict, d.isFalsy = false →
    (PDFHybridExtractor._should_keep_figure (some d) = true ↔
      ¬((d.width.getD 0 < 100 ∧ d.height.getD 0 < 100) ∨
        d.width.getD 0 * d.height.getD 0 < 20000))) ∧
  PDFSimpleExtractor._is_valid_figure_size
      (some { x_min := 0, y_min := 0, x_max := 50, y_max := 500 }) = true ∧
  PDFSimpleExtractor._is_valid_figure_size
      (some { x_min := 0, y_min := 0, x_max := 50, y_max := 50 }) = false ∧
  PDFHybridExtractor._should_keep_figure
      (some { x0 := some 0, y0 := some 0, x1 := some 50, y1 := some 500,
              width := some 50, height := some 500 }) = true ∧
  PDFHybridExtractor._should_keep_figure
      (some { x0 := some 0, y0 := some 0, x1 := some 50, y1 := some 50,
              width := some 50, height := some 50 }) = false := by
  have hsimple : ∀ b : BoundingBox,
      PDFSimpleExtractor._is_valid_figure_size (some b) = true ↔
        ¬((b.width < 100 ∧ b.height < 100) ∨ b.area < 20000) := by
    intro b
    simp only [PDFSimpleExtractor._is_valid_figure_size, PDFConstants.MIN_FIGURE_WIDTH,
      PDFConstants.MIN_FIGURE_HEIGHT, PDFConstants.MIN_FIGURE_AREA, ← Bool.decide_and,
      ← Bool.decide_or, Bool.not_eq_true', decide_eq_false_iff_not]
  have hhybrid : ∀ d : BBoxDict, d.isFalsy = false →
      (PDFHybridExtractor._should_keep_figure (some d) = true ↔
        ¬((d.width.getD 0 < 100 ∧ d.height.getD 0 < 100) ∨
          d.width.getD 0 * d.height.getD 0 < 20000)) := by
    intro d hd
    simp only [PDFHybridExtractor._should_keep_figure, hd, Bool.false_eq_true, if_false,
      PDFConstants.MIN_FIGURE_WIDTH, PDFConstants.MIN_FIGURE_HEIGHT,
      PDFConstants.MIN_FIGURE_AREA, ← Bool.decide_and, ← Bool.decide_or, Bool.not_eq_true',
      decide_eq_false_iff_not]
  refine ⟨hsimple, hhybrid, ?_, ?_, ?_, ?_⟩
  · exact (hsimple _).mpr (by norm_num [BoundingBox.width, BoundingBox.height, BoundingBox.area])
  · rw [← Bool.not_eq_true, hsimple, not_not]
    norm_num [BoundingBox.width, BoundingBox.height, BoundingBox.area]
  · exact (hhybrid ⟨some 0, some 0, some 50, some 500, some 50, some 500⟩ rfl).mpr (by norm_num)
  · rw [← Bool.not_eq_true, hhybrid ⟨some 0, some 0, some 50, some 50, some 50, some 50⟩ rfl,
      not_not]
    norm_num

/-- Claim C3 witness: the conditional part of the claim instantiated at a
concrete non-empty bounding-box dict. -/
theorem C3_figure_size_filter_witness :
  PDFHybridExtractor._should_keep_figure
      (some { x0 := some 0, y0 := some 0, x1 := some 50, y1 := some 500,
              width := some 50, height := some 500 }) = true :=
  (C3_figure_size_filter_spec.2.1
      { x0 := some 0, y0 := some 0, x1 := some 50, y1 := some 500,
        width := some 50, height := some 500 } rfl).mpr
    (by norm_num : ¬(((50 : ℚ) < 100 ∧ (500 : ℚ) < 100) ∨ (50 : ℚ) * 500 < 20000))

/-- Claim C4: `is_contained_within(inner, outer, tolerance)` holds exactly
when every inner edge is within `tolerance` of the corresponding outer
edge; with the default tolerance 5.0, 4 units outside on every edge is
contained, 6 units outside on one edge is not. -/
theorem C4_is_contained_within_spec :
  (∀ (inner outer : BoundingBox) (tolerance : ℚ),
    BoundingBoxOperations.is_contained_within inner outer tolerance = true ↔
      (inner.x_min ≥ outer.x_min - tolerance ∧ inner.y_min ≥ outer.y_min - tolerance ∧
       inner.x_max ≤ outer.x_max + tolerance ∧ inner.y_max ≤ outer.y_max + tolerance)) ∧
  BoundingBoxOperations.is_contained_within
      { x_min := -4, y_min := -4, x_max := 104, y_max := 104 }
      { x_min := 0, y_min := 0, x_max := 100, y_max := 100 }
      PDFConstants.BBOX_TOLERANCE = true ∧
  BoundingBoxOperations.is_contained_within
      { x_min := -6, y_min := -4, x_max := 104, y_max := 104 }
      { x_min := 0, y_min := 0, x_max := 100, y_max := 100 }
      PDFConstants.BBOX_TOLERANCE = false := by
  refine ⟨fun inner outer tolerance => ?_, ?_, ?_⟩
  · simp [BoundingBoxOperations.is_contained_within, and_assoc, ge_iff_le]
  · simp only [BoundingBoxOperations.is_contained_within, Bool.and_eq_true, decide_eq_true_eq]
    norm_num [PDFConstants.BBOX_TOLERANCE]
  · simp only [BoundingBoxOperations.is_contained_within, Bool.and_eq_false_iff,
      decide_eq_false_iff_not]
    norm_num [PDFConstants.BBOX_TOLERANCE]

/-- Claim C5: `are_adjacent(a, b, max_gap)` holds exactly when the boxes are
within `max_gap` in one axis and overlap in the other; with the default gap
100.0, an exact vertical gap of 100.0 with x-overlap is adjacent and a gap
of 100.1 is not. -/
theorem C5_are_adjacent_spec :
  (∀ (a b : BoundingBox) (max_gap : ℚ),
    BoundingBoxOperations.are_adjacent a b max_gap = true ↔
      ((min |a.y_min - b.y_max| |b.y_min - a.y_max| ≤ max_gap ∧
        b.x_min ≤ a.x_max ∧ a.x_min ≤ b.x_max) ∨
       (min |a.x_min - b.x_max| |b.x_min - a.x_max| ≤ max_gap ∧
        b.y_min ≤ a.y_max ∧ a.y_min ≤ b.y_max))) ∧
  BoundingBoxOperations.are_adjacent
      { x_min := 0, y_min := 0, x_max := 10, y_max := 10 }
      { x_min := 0, y_min := 110, x_max := 10, y_max := 120 }
      PDFConstants.MAX_ADJACENCY_GAP = true ∧
  BoundingBoxOperations.are_adjacent
      { x_min := 0, y_min := 0, x_max := 10, y_max := 10 }
      { x_min := 0, y_min := 110.1, x_max := 10, y_max := 120.1 }
      PDFConstants.MAX_ADJACENCY_GAP = false := by
  refine ⟨fun a b max_gap => ?_, ?_, ?_⟩
  · simp [BoundingBoxOperations.are_adjacent, not_or, not_lt, and_assoc]
  · simp only [BoundingBoxOperations.are_adjacent]
    norm_num [PDFConstants.MAX_ADJACENCY_GAP, abs_of_nonneg, abs_of_nonpos]
  · simp only [BoundingBoxOperations.are_adjacent]
    norm_num [PDFConstants.MAX_ADJACENCY_GAP, abs_of_nonneg, abs_of_nonpos]

/-- Claim C6: `calculate_text_similarity` strips both strings, returns 1.0
on equality, the shorter-to-longer length ratio when one is a substring of
the other, and 0.0 otherwise; "cat" vs "the cat sat" scores 3/11 and "dog"
vs "cat" scores 0. -/
theorem C6_text_similarity_spec :
  (∀ s t : String, (pyStrip s) = (pyStrip t) → TextProcessor.calculate_text_similarity s t = 1) ∧
  (∀ s t : String, (pyStrip s) ≠ (pyStrip t) →
    ((pyStrip s).data <:+: (pyStrip t).data ∨ (pyStrip t).data <:+: (pyStrip s).data) →
    TextProcessor.calculate_text_similarity s t =
      (min (pyStrip s).length (pyStrip t).length : ℚ) / (max (pyStrip s).length (pyStrip t).length : ℚ)) ∧
  (∀ s t : String, (pyStrip s) ≠ (pyStrip t) →
    ¬((pyStrip s).data <:+: (pyStrip t).data) → ¬((pyStrip t).data <:+: (pyStrip s).data) →
    TextProcessor.calculate_text_similarity s t = 0) ∧
  TextProcessor.calculate_text_similarity "cat" "the cat sat" = 3/11 ∧
  TextProcessor.calculate_text_similarity "dog" "cat" = 0 := by
  refine ⟨fun s t h => ?_, fun s t h hsub => ?_, fun s t h h1 h2 => ?_, ?_, ?_⟩
  · simp [TextProcessor.calculate_text_similarity, h]
  · simp only [TextProcessor.calculate_text_similarity, isSubstr]
    rw [if_neg h, if_pos]
    simp only [Bool.or_eq_true, listContains_iff_IsInfix]
    exact hsub
  · simp only [TextProcessor.calculate_text_similarity, isSubstr]
    rw [if_neg h, if_neg]
    simp only [Bool.or_eq_true, listContains_iff_IsInfix, not_or]
    exact ⟨h1, h2⟩
  · simp only [TextProcessor.calculate_text_similarity]
    rw [if_neg (by decide), if_pos (by decide)]
    rw [show (pyStrip "cat").length = 3 by decide,
      show (pyStrip "the cat sat").length = 11 by decide]
    norm_num
  · simp only [TextProcessor.calculate_text_similarity]
    rw [if_neg (by decide), if_neg (by decide)]

/-- Claim C6 witness: the equal-strings branch instantiated concretely. -/
theorem C6_text_similarity_witness :
  TextProcessor.calculate_text_similarity "abc" "abc" = 1 :=
  C6_text_similarity_spec.1 "abc" "abc" rfl

/-- Claim C7: `from_dict ∘ to_dict` reproduces a box with every coordinate
rounded to 2 decimals (hence exactly, when the coordinates already have at
most 2 decimal digits); `from_dict` defaults each missing coordinate key to
0 and ignores `width`/`height`. -/
theorem C7_bbox_roundtrip_spec :
  (∀ b : BoundingBox, BoundingBox.from_dict (BoundingBox.to_dict b) =
      { x_min := pyRound2 b.x_min, y_min := pyRound2 b.y_min,
        x_max := pyRound2 b.x_max, y_max := pyRound2 b.y_max }) ∧
  (∀ b : BoundingBox,
    (∃ k : ℤ, b.x_min = (k : ℚ) / 100) → (∃ k : ℤ, b.y_min = (k : ℚ) / 100) →
    (∃ k : ℤ, b.x_max = (k : ℚ) / 100) → (∃ k : ℤ, b.y_max = (k : ℚ) / 100) →
    BoundingBox.from_dict (BoundingBox.to_dict b) = b) ∧
  BoundingBox.from_dict {} = { x_min := 0, y_min := 0, x_max := 0, y_max := 0 } ∧
  (∀ d : BBoxDict, BoundingBox.from_dict d =
      { x_min := d.x0.getD 0, y_min := d.y0.getD 0,
        x_max := d.x1.getD 0, y_max := d.y1.getD 0 }) ∧
  (∀ (d : BBoxDict) (w h : Option ℚ),
    BoundingBox.from_dict { d with width := w, height := h } = BoundingBox.from_dict d) := by
  refine ⟨fun b => rfl, fun b hx hy hx2 hy2 => ?_, rfl, fun d => rfl, fun d w h => rfl⟩
  obtain ⟨k1, e1⟩ := hx
  obtain ⟨k2, e2⟩ := hy
  obtain ⟨k3, e3⟩ := hx2
  obtain ⟨k4, e4⟩ := hy2
  cases b
  simp only at e1 e2 e3 e4
  subst e1 e2 e3 e4
  simp only [BoundingBox.from_dict, BoundingBox.to_dict, Option.getD_some, BoundingBox.mk.injEq]
  exact ⟨pyRound2_cent k1, pyRound2_cent k2, pyRound2_cent k3, pyRound2_cent k4⟩

/-- Claim C7 witness: exact round-trip at a concrete 2-decimal box. -/
theorem C7_bbox_roundtrip_witness :
  BoundingBox.from_dict
      (BoundingBox.to_dict { x_min := 5/4, y_min := -7/2, x_max := 10, y_max := 11/4 }) =
    { x_min := 5/4, y_min := -7/2, x_max := 10, y_max := 11/4 } :=
  C7_bbox_roundtrip_spec.2.1 _
    ⟨125, by norm_num⟩ ⟨-350, by norm_num⟩ ⟨1000, by norm_num⟩ ⟨275, by norm_num⟩

/-- Claim C8: when the LLM chat-completion call raises, `query` catches the
exception and returns an error-describing answer (with an empty reference
list when `return_references` is true) instead of propagating. -/
theorem C8_query_error_handling_spec :
  ∀ (text_contexts visual_contexts : List RetrievedContext) (e : String),
    RAGQuerySystem.query text_contexts visual_contexts (Except.error e) true =
      QueryReturn.withRefs ("Error calling LLM: " ++ e) [] ∧
    RAGQuerySystem.query text_contexts visual_contexts (Except.error e) false =
      QueryReturn.answerOnly ("Error calling LLM: " ++ e) :=
  fun _ _ _ => ⟨rfl, rfl⟩

/-- Claim C9: one successfully handled `/chat` turn appends the user and
assistant messages, keeps exactly the most recent `min (len+2) 20` entries,
and therefore preserves the ≤ 20 invariant. -/
theorem C9_history_cap_spec :
  ∀ (history : List ChatTurn) (u a : String),
    WebService.update_conversation_history history u a =
      (history ++ [WebService.userTurn u, WebService.assistantTurn a]).drop
        ((history.length + 2) - 20) ∧
    (WebService.update_conversation_history history u a).length = min (history.length + 2) 20 ∧
    (history.length ≤ 20 → (WebService.update_conversation_history history u a).length ≤ 20) ∧
    WebService.update_conversation_history history u a <:+
      (history ++ [WebService.userTurn u, WebService.assistantTurn a]) := by
  intro history u a
  simp only [WebService.update_conversation_history, WebService.userTurn,
    WebService.assistantTurn, List.length_append, List.length_cons, List.length_nil]
  by_cases hlen : history.length + 2 > 20
  · rw [if_pos hlen]
    refine ⟨rfl, ?_, fun _ => ?_, List.drop_suffix _ _⟩
    · simp only [List.length_drop, List.length_append, List.length_cons, List.length_nil]
      omega
    · simp only [List.length_drop, List.length_append, List.length_cons, List.length_nil]
      omega
  · rw [if_neg hlen]
    have h0 : history.length + 2 - 20 = 0 := by omega
    refine ⟨by rw [h0, List.drop_zero], ?_, fun _ => ?_, List.suffix_refl _⟩
    · simp only [List.length_append, List.length_cons, List.length_nil]
      omega
    · simp only [List.length_append, List.length_cons, List.length_nil]
      omega

/-- Claim C9 witness: a turn on a full 20-entry history stays at 20 entries. -/
theorem C9_history_cap_witness :
  (WebService.update_conversation_history
      (List.replicate 20 (WebService.userTurn "m")) "u" "a").length ≤ 20 :=
  (C9_history_cap_spec (List.replicate 20 (WebService.userTurn "m")) "u" "a").2.2.1
    (by simp)

/-- Claim C10: a `Table` element that is not an image, whose caption search
returns neither a table- nor figure-typed caption, and from which no
bounding box can be constructed, is classified as table — for every
possible diagram-pattern test, i.e. without inspecting the element's size
or text. -/
theorem C10_no_bbox_defaults_to_table :
  ∀ (has_diagram_pattern : String → Bool) (element : PyElement) (elements : List PyElement)
    (element_index : Nat) (current_page : Int),
    element.cls = ElemClass.table →
    ElementClassifierHybrid._is_image_element element = false →
    (CaptionDetector.find_caption_and_description elements element_index current_page).2.2.2 =
      ElementType.unknown →
    BoundingBoxOperations.create_from_element element false = none →
    ElementClassifierHybrid.classify_element has_diagram_pattern element elements
      element_index current_page = ElementType.table := by
  intro hdp element elements element_index current_page hcls himg hcap hbb
  simp only [ElementClassifierHybrid.classify_element,
    ElementClassifierHybrid._classify_table_element,
    ElementClassifierHybrid._classify_by_characteristics, himg, hcls, hcap, hbb,
    Bool.false_eq_true, if_false, if_true, reduceIte]

/-- Claim C10 witness: a coordinate-free table element in an empty element
list is classified as table, for a diagram-pattern test that always
matches. -/
theorem C10_no_bbox_defaults_to_table_witness :
  ElementClassifierHybrid.classify_element (fun _ => true) (tableElement "abc") [] 0 1 =
    ElementType.table :=
  C10_no_bbox_defaults_to_table (fun _ => true) (tableElement "abc") [] 0 1 rfl rfl rfl rfl

end RagChatbot
